import Mathlib

/-!
# Verification of the fabric.js `LayoutManager` core

Shallow embedding of `src/src/LayoutManager/LayoutManager.ts` (class
`LayoutManager`, helper `groupSVGElements`) and of the geometric
collaborator interface it consumes.  Numbers are modelled as rationals,
JS object identity as natural-number ids, the mutable heap (objects,
managers, active event listeners, shared `path` arrays) as an explicit
`World` record threaded through every operation, and the hook/event
side effects as an emitted trace.
-/

namespace Fabric

/-- 2D point with rational coordinates (fabric's `Point`). -/
structure Point where
  x : ℚ
  y : ℚ
deriving DecidableEq, Repr

/-- `new Point()` is the zero point. -/
def Point.zeroP : Point := ⟨0, 0⟩

def Point.add (p q : Point) : Point := ⟨p.x + q.x, p.y + q.y⟩

def Point.subtract (p q : Point) : Point := ⟨p.x - q.x, p.y - q.y⟩

def Point.multiply (p q : Point) : Point := ⟨p.x * q.x, p.y * q.y⟩

/-- A 2x3 affine matrix `[a, b, c, d, e, f]` (fabric's `TMat2D`). -/
structure TMat2D where
  a : ℚ
  b : ℚ
  c : ℚ
  d : ℚ
  e : ℚ
  f : ℚ
deriving DecidableEq, Repr

/-- The identity matrix (fabric's `iMatrix`). -/
def iMatrix : TMat2D := ⟨1, 0, 0, 1, 0, 0⟩

/-- Modelled from the spec: fabric's `Point#transform(t, ignoreOffset)`
(geometric primitive, not under `src/`): applies the affine matrix, dropping
the translation part when `ignoreOffset` is set. -/
def Point.transform (p : Point) (t : TMat2D) (ignoreOffset : Bool) : Point :=
  ⟨t.a * p.x + t.c * p.y + (if ignoreOffset then 0 else t.e),
   t.b * p.x + t.d * p.y + (if ignoreOffset then 0 else t.f)⟩

/-- Modelled from the spec: fabric's `invertTransform` (affine matrix
operations, not under `src/`): the inverse of an affine matrix. -/
def invertTransform (t : TMat2D) : TMat2D :=
  let ia : ℚ := 1 / (t.a * t.d - t.b * t.c)
  let r : TMat2D := ⟨ia * t.d, -ia * t.b, -ia * t.c, ia * t.a, 0, 0⟩
  let p := (Point.mk t.e t.f).transform r true
  ⟨r.a, r.b, r.c, r.d, -p.x, -p.y⟩

/-- The `type` field of a layout context. -/
inductive LayoutType where
  | initialization
  | added
  | removed
  | object_modified
  | object_modifying
deriving DecidableEq, Repr

/-- What a strategy's `calcLayoutResult` returns (fabric's
`LayoutStrategyResult`): new center, new dimensions, optional corrections. -/
structure LayoutStrategyResult where
  centerX : ℚ
  centerY : ℚ
  width : ℚ
  height : ℚ
  correctionX : Option ℚ := none
  correctionY : Option ℚ := none
  relativeCorrectionX : Option ℚ := none
  relativeCorrectionY : Option ℚ := none
deriving DecidableEq, Repr

/-- The computed layout bundle (`Required<LayoutResult>` in the source):
the strategy result together with previous/next center and the child offset. -/
structure RequiredLayoutResult where
  result : LayoutStrategyResult
  prevCenter : Point
  nextCenter : Point
  offset : Point
deriving DecidableEq, Repr

/-- Strategy instances are compared by JS reference identity (`!==`);
we model each instance by a numeric identity. -/
abbrev StrategyId := Nat

/-- Object (scene-graph node) identity. -/
abbrev ObjId := Nat

/-- Manager identity. -/
abbrev ManagerId := Nat

/-- Identity of a shared mutable `path` array. -/
abbrev PathRef := Nat

/-- The caller-facing `LayoutContext`.  The three `...F` fields model the JS
spread semantics of `performLayout`: a bubbled context is a strict context
spread into a new object, so it carries `strategy` / `prevStrategy` /
`strategyChange` keys that override the manager's own values; a plain
caller-supplied context has them absent (`none`). -/
structure LayoutContext where
  type : LayoutType
  target : ObjId
  targets : List ObjId := []
  objectsRelativeToGroup : Bool := false
  path : Option PathRef := none
  strategyF : Option StrategyId := none
  prevStrategyF : Option (Option StrategyId) := none
  strategyChangeF : Option Bool := none
deriving DecidableEq, Repr

/-- The enriched `StrictLayoutContext` built at dispatch time. -/
structure StrictLayoutContext where
  strategy : StrategyId
  prevStrategy : Option StrategyId
  strategyChange : Bool
  type : LayoutType
  target : ObjId
  targets : List ObjId
  objectsRelativeToGroup : Bool
  path : Option PathRef
deriving DecidableEq, Repr

/-- Behaviours of the strategy instances, keyed by identity.  The base
`LayoutStrategy` class is not under `src/`; the manager only calls
`calcLayoutResult` and `shouldLayoutClipPath` on it, so we model those two
capabilities as an environment. -/
structure StrategyEnv where
  calcLayoutResult : StrategyId → StrictLayoutContext → List ObjId → Option LayoutStrategyResult
  shouldLayoutClipPath : StrategyId → StrictLayoutContext → Bool

/-- State of one scene-graph object, as seen through the collaborator
interface the manager consumes (queries and mutations of §6 of the spec).
`originX`/`originY` store the already-resolved origin factors. -/
structure ObjState where
  left : ℚ := 0
  top : ℚ := 0
  width : ℚ := 0
  height : ℚ := 0
  originX : ℚ := 0
  originY : ℚ := 0
  ownMatrix : TMat2D := iMatrix
  relXY : Point := Point.zeroP
  group : Option ObjId := none
  layoutManager : Option ManagerId := none
  clipPath : Option ObjId := none
  absolutePositioned : Bool := false
  objects : List ObjId := []
  coordsUpdated : Bool := false
  dirty : Bool := false
deriving DecidableEq, Repr

/-- Modelled from the spec: `getRelativeCenterPoint` (container query, not
under `src/`): the origin-anchored position converted to a center using the
resolved origin factors, `origin = center + (w, h) * (originX, originY)`. -/
def ObjState.getRelativeCenterPoint (o : ObjState) : Point :=
  ⟨o.left - o.width * o.originX, o.top - o.height * o.originY⟩

/-- Modelled from the spec: `setPositionByOrigin(c, CENTER, CENTER)`
(container mutation, not under `src/`): reposition so the center is `c`. -/
def ObjState.setPositionByOriginCenter (o : ObjState) (c : Point) : ObjState :=
  { o with left := c.x + o.width * o.originX, top := c.y + o.height * o.originY }

/-- State of one `LayoutManager` instance. -/
structure LayoutManagerState where
  firstLayoutDone : Bool := false
  prevLayoutStrategy : Option StrategyId := none
  strategy : StrategyId
  subscriptions : List (ObjId × List Nat) := []
deriving DecidableEq, Repr

/-- Look up a subscription-map entry (`Map#get`). -/
def mapGet (m : List (ObjId × List Nat)) (o : ObjId) : Option (List Nat) :=
  (m.find? (fun p => p.1 = o)).map (fun p => p.2)

/-- Overwrite or insert a subscription-map entry (`Map#set`). -/
def mapSet (m : List (ObjId × List Nat)) (o : ObjId) (v : List Nat) :
    List (ObjId × List Nat) :=
  if (m.find? (fun p => p.1 = o)).isSome then
    m.map (fun p => if p.1 = o then (o, v) else p)
  else
    m ++ [(o, v)]

/-- The mutable heap: objects, managers, active event listeners
(listener id paired with the object it is registered on), and the arena of
shared `path` arrays. -/
structure World where
  objs : ObjId → ObjState
  managers : ManagerId → LayoutManagerState
  listeners : List (Nat × ObjId) := []
  nextListenerId : Nat := 0
  paths : PathRef → List ObjId
  nextPathRef : PathRef := 0

/-- Pointwise object update. -/
def World.updateObj (w : World) (i : ObjId) (f : ObjState → ObjState) : World :=
  { w with objs := fun j => if j = i then f (w.objs j) else w.objs j }

/-- Pointwise manager update. -/
def World.updateManager (w : World) (i : ManagerId)
    (f : LayoutManagerState → LayoutManagerState) : World :=
  { w with managers := fun j => if j = i then f (w.managers j) else w.managers j }

/-- Number of listeners `subscribe` installs per object: one `modified`
handler, six continuous-modification handlers (`moving`, `resizing`,
`rotating`, `scaling`, `skewing`, `changed`), and one text `changed`
handler. -/
def subscribeCount : Nat := 8

/-- `LayoutManager#unsubscribe`: run every disposer recorded for `object`
(each disposer detaches the listener it installed); the map entry itself is
not deleted. -/
def LayoutManagerState.unsubscribeW (mid : ManagerId) (object : ObjId)
    (w : World) : World :=
  let dis := (mapGet (w.managers mid).subscriptions object).getD []
  { w with listeners := w.listeners.filter (fun l => decide (l.1 ∉ dis)) }

/-- `LayoutManager#subscribe`: first dispose any existing registered
disposers for `object`, then install a fresh disposer list (8 new
listeners) and record it in the subscription map. -/
def LayoutManagerState.subscribeW (mid : ManagerId) (object : ObjId)
    (w : World) : World :=
  let w1 := LayoutManagerState.unsubscribeW mid object w
  let ids := (List.range subscribeCount).map (fun i => w1.nextListenerId + i)
  let w2 := { w1 with
    listeners := w1.listeners ++ ids.map (fun i => (i, object)),
    nextListenerId := w1.nextListenerId + subscribeCount }
  w2.updateManager mid (fun m =>
    { m with subscriptions := mapSet m.subscriptions object ids })

/-- Hook/event side effects emitted during a pass, in order. -/
inductive LEffect where
  | beforeHook (ctx : StrictLayoutContext)
  | beforeEvent (ctx : StrictLayoutContext)
  | afterHook (ctx : StrictLayoutContext) (result : Option RequiredLayoutResult)
  | afterEvent (ctx : StrictLayoutContext) (result : Option RequiredLayoutResult)
  | bubble (parentManager : ManagerId) (ctx : LayoutContext)
deriving DecidableEq, Repr

/-- Construction of the `StrictLayoutContext` in `performLayout`
(lines 30–37): the manager attaches `strategy`, `prevStrategy` and the
derived `strategyChange`, then spreads the incoming context over them, so
any strict field already present on the context wins. -/
def buildStrictContext (m : LayoutManagerState) (context : LayoutContext) :
    StrictLayoutContext :=
  { strategy := context.strategyF.getD m.strategy
    prevStrategy := context.prevStrategyF.getD m.prevLayoutStrategy
    strategyChange := context.strategyChangeF.getD
      (match m.prevLayoutStrategy with
       | none => false
       | some p => decide (m.strategy ≠ p))
    type := context.type
    target := context.target
    targets := context.targets
    objectsRelativeToGroup := context.objectsRelativeToGroup
    path := context.path }

/-- `LayoutManager#onBeforeLayout`: subscribe the `targets` on
`initialization`/`added`, unsubscribe them on `removed`, then fire the
pre-layout hook and the `layout:before` event. -/
def onBeforeLayoutW (mid : ManagerId) (context : StrictLayoutContext)
    (w : World) : World × List LEffect :=
  let w1 :=
    if context.type = LayoutType.initialization ∨ context.type = LayoutType.added then
      context.targets.foldl
        (fun acc o => LayoutManagerState.subscribeW mid o acc) w
    else if context.type = LayoutType.removed then
      context.targets.foldl
        (fun acc o => LayoutManagerState.unsubscribeW mid o acc) w
    else w
  (w1, [LEffect.beforeHook context, LEffect.beforeEvent context])

/-- The previous center used by `getLayoutResult` (lines 143–146): the zero
point on `initialization`, the target's current relative center otherwise. -/
def glrPrevCenter (context : StrictLayoutContext) (target : ObjState) : Point :=
  if context.type = LayoutType.initialization then Point.zeroP
  else target.getRelativeCenterPoint

/-- The child offset computed by `getLayoutResult` (lines 163–176):
`transform(prevCenter - nextCenter + correction, M) + relativeCorrection`
with `M = iMatrix` on `initialization`, else the inverse of the target's own
matrix — forced to zero on `initialization` with `objectsRelativeToGroup`;
absent corrections default to 0. -/
def glrOffset (context : StrictLayoutContext) (target : ObjState)
    (result : LayoutStrategyResult) : Point :=
  if context.type = LayoutType.initialization ∧ context.objectsRelativeToGroup
  then Point.zeroP
  else
    ((((glrPrevCenter context target).subtract
        ⟨result.centerX, result.centerY⟩).add
        ⟨result.correctionX.getD 0, result.correctionY.getD 0⟩).transform
      (if context.type = LayoutType.initialization then iMatrix
       else invertTransform target.ownMatrix) true).add
      ⟨result.relativeCorrectionX.getD 0, result.relativeCorrectionY.getD 0⟩

/-- `LayoutManager#getLayoutResult` (lines 139–183): ask the strategy for a
result over the target's children; when it yields one, bundle it with the
previous/next center and the child offset. -/
def getLayoutResult (env : StrategyEnv) (context : StrictLayoutContext)
    (w : World) : Option RequiredLayoutResult :=
  match env.calcLayoutResult context.strategy context
      (w.objs context.target).objects with
  | none => none
  | some result =>
    some { result := result
           prevCenter := glrPrevCenter context (w.objs context.target)
           nextCenter := ⟨result.centerX, result.centerY⟩
           offset := glrOffset context (w.objs context.target) result }

/-- `LayoutManager#layoutObject`: shift one object's stored relative
position by the pass's offset (`setRelativeXY(getRelativeXY().add(offset))`,
both accessors modelled from the spec as the stored relative position). -/
def layoutObjectW (lr : RequiredLayoutResult) (oid : ObjId) (w : World) : World :=
  w.updateObj oid (fun o => { o with relXY := o.relXY.add lr.offset })

/-- First half of `LayoutManager#layoutObjects`: shift every direct child
whose `group` reference is the target (skipped entirely on `initialization`
with `objectsRelativeToGroup`). -/
def layoutChildrenW (context : StrictLayoutContext) (lr : RequiredLayoutResult)
    (w : World) : World :=
  if context.type ≠ LayoutType.initialization ∨ ¬context.objectsRelativeToGroup
  then
    (w.objs context.target).objects.foldl
      (fun acc oid =>
        if (acc.objs oid).group = some context.target then layoutObjectW lr oid acc
        else acc) w
  else w

/-- Second half of `LayoutManager#layoutObjects`: shift the clip path when
the strategy asks for it and it is not absolutely positioned. -/
def layoutClipPathW (env : StrategyEnv) (context : StrictLayoutContext)
    (lr : RequiredLayoutResult) (w : World) : World :=
  match (w.objs context.target).clipPath with
  | some cp =>
    if env.shouldLayoutClipPath context.strategy context
        ∧ ¬(w.objs cp).absolutePositioned
    then layoutObjectW lr cp w
    else w
  | none => w

/-- `LayoutManager#layoutObjects`: children first, then the clip path. -/
def layoutObjectsW (env : StrategyEnv) (context : StrictLayoutContext)
    (lr : RequiredLayoutResult) (w : World) : World :=
  layoutClipPathW env context lr (layoutChildrenW context lr w)

/-- Positioning step of `commitLayout`: on `initialization` set the
origin-scaled absolute position directly; otherwise, when the center
actually changed, move the target by a center-anchored reposition. -/
def commitPositionW (context : StrictLayoutContext) (lr : RequiredLayoutResult)
    (w : World) : World :=
  if context.type = LayoutType.initialization then
    w.updateObj context.target (fun o =>
      { o with
          left := (lr.nextCenter.add
            ((Point.mk lr.result.width lr.result.height).multiply
              ⟨o.originX, o.originY⟩)).x
          top := (lr.nextCenter.add
            ((Point.mk lr.result.width lr.result.height).multiply
              ⟨o.originX, o.originY⟩)).y })
  else if lr.nextCenter ≠ lr.prevCenter then
    w.updateObj context.target (fun o => o.setPositionByOriginCenter lr.nextCenter)
  else w

/-- Invalidation step of `commitLayout`: refresh the cached coordinates
except on `initialization`. -/
def commitInvalidateW (context : StrictLayoutContext) (w : World) : World :=
  if context.type ≠ LayoutType.initialization then
    w.updateObj context.target (fun o => { o with coordsUpdated := true })
  else w

/-- `LayoutManager#commitLayout` (lines 185–217): write the new dimensions,
reposition the descendants, position the container itself, refresh the
cached coordinates, and mark the target dirty. -/
def commitLayoutW (env : StrategyEnv) (context : StrictLayoutContext)
    (lr : RequiredLayoutResult) (w : World) : World :=
  (commitInvalidateW context
      (commitPositionW context lr
        (layoutObjectsW env context lr
          (w.updateObj context.target (fun o =>
            { o with width := lr.result.width, height := lr.result.height }))))).updateObj
    context.target (fun o => { o with dirty := true })

/-- `(context.path || (context.path = [])).push(target)`: push the target
onto the shared `path` array named by the context, allocating a fresh array
when the context carried none; returns the array's identity. -/
def pushPath (tid : ObjId) (p : Option PathRef) (w : World) : World × PathRef :=
  match p with
  | some r =>
    ({ w with paths := fun j => if j = r then w.paths j ++ [tid] else w.paths j }, r)
  | none =>
    ({ w with
        paths := fun j => if j = w.nextPathRef then [tid] else w.paths j,
        nextPathRef := w.nextPathRef + 1 }, w.nextPathRef)

/-- The context handed to the parent manager when bubbling: the full strict
context spread into a fresh object with only `target` replaced (so it
carries the strict fields) and `path` now present. -/
def bubbledContext (context : StrictLayoutContext) (gid : ObjId) (r : PathRef) :
    LayoutContext :=
  { type := context.type
    target := gid
    targets := context.targets
    objectsRelativeToGroup := context.objectsRelativeToGroup
    path := some r
    strategyF := some context.strategy
    prevStrategyF := some context.prevStrategy
    strategyChangeF := some context.strategyChange }

/-- `LayoutManager#onAfterLayout` minus the recursive call (lines 249–276):
fire the post-layout hook and `layout` event with the (possibly absent)
result; when the target's parent group has a layout manager, push the target
onto the context's `path` and return the parent manager plus the bubbled
context. -/
def onAfterLayoutW (context : StrictLayoutContext)
    (layoutResult : Option RequiredLayoutResult) (w : World) :
    World × List LEffect × Option (ManagerId × LayoutContext) :=
  match (w.objs context.target).group with
  | some gid =>
    match (w.objs gid).layoutManager with
    | some pm =>
      ((pushPath context.target context.path w).1,
       [LEffect.afterHook context layoutResult,
        LEffect.afterEvent context layoutResult],
       some (pm, bubbledContext context gid (pushPath context.target context.path w).2))
    | none =>
      (w, [LEffect.afterHook context layoutResult,
           LEffect.afterEvent context layoutResult], none)
  | none =>
    (w, [LEffect.afterHook context layoutResult,
         LEffect.afterEvent context layoutResult], none)

/-- The synthesized first-layout fallback bundle (lines 47–60): previous and
next center are the target's current relative center, the offset is zero,
and the dimensions are copied from the target. -/
def fallbackResult (target : ObjState) : RequiredLayoutResult :=
  { result :=
      { centerX := target.getRelativeCenterPoint.x
        centerY := target.getRelativeCenterPoint.y
        width := target.width
        height := target.height }
    prevCenter := target.getRelativeCenterPoint
    nextCenter := target.getRelativeCenterPoint
    offset := Point.zeroP }

/-- Compute-or-fallback phase of `performLayout` (lines 41–60): commit when
the strategy produced a result; otherwise synthesize the fallback bundle,
but only on the very first layout. -/
def computePhase (env : StrategyEnv) (m : LayoutManagerState)
    (sc : StrictLayoutContext) (w1 : World) : World × Option RequiredLayoutResult :=
  match getLayoutResult env sc w1 with
  | some lr => (commitLayoutW env sc lr w1, some lr)
  | none =>
    if ¬m.firstLayoutDone then (w1, some (fallbackResult (w1.objs sc.target)))
    else (w1, none)

/-- The non-gated body of `performLayout` (lines 30–65), with the recursive
bubbling call abstracted as `recur`: strict-context construction,
before-hook, compute phase, `firstLayoutDone` flag, after-hook with
synchronous bubbling to the parent manager, and finally recording of the
strategy used for this pass. -/
def performLayoutBody (env : StrategyEnv)
    (recur : ManagerId → LayoutContext → World → World × List LEffect)
    (mid : ManagerId) (context : LayoutContext) (w : World) :
    World × List LEffect :=
  match onAfterLayoutW (buildStrictContext (w.managers mid) context)
      (computePhase env (w.managers mid) (buildStrictContext (w.managers mid) context)
        (onBeforeLayoutW mid (buildStrictContext (w.managers mid) context) w).1).2
      ((computePhase env (w.managers mid) (buildStrictContext (w.managers mid) context)
        (onBeforeLayoutW mid (buildStrictContext (w.managers mid) context) w).1).1.updateManager
        mid (fun mm => { mm with firstLayoutDone := true })) with
  | (w4, effs2, some pc) =>
    ((recur pc.1 pc.2 w4).1.updateManager mid
        (fun mm =>
          { mm with
            prevLayoutStrategy := some (buildStrictContext (w.managers mid) context).strategy }),
     (onBeforeLayoutW mid (buildStrictContext (w.managers mid) context) w).2
       ++ effs2 ++ [LEffect.bubble pc.1 pc.2] ++ (recur pc.1 pc.2 w4).2)
  | (w4, effs2, none) =>
    (w4.updateManager mid
        (fun mm =>
          { mm with
            prevLayoutStrategy := some (buildStrictContext (w.managers mid) context).strategy }),
     (onBeforeLayoutW mid (buildStrictContext (w.managers mid) context) w).2 ++ effs2)

/-- `LayoutManager#performLayout` (lines 24–65), made terminating by fuel
(the scene graph is acyclic, so enough fuel makes the fuel bound inert):
the pre-initialization gate drops the request outright; otherwise the body
runs with the recursion one fuel level down. -/
def performLayout (env : StrategyEnv) :
    Nat → ManagerId → LayoutContext → World → World × List LEffect
  | 0, _, _, w => (w, [])
  | Nat.succ fuel, mid, context, w =>
    if ¬(w.managers mid).firstLayoutDone ∧ context.type ≠ LayoutType.initialization
    then (w, [])
    else performLayoutBody env (performLayout env fuel) mid context w

/-- Modelled from the spec / `groupSVGElements` (second part of the source
file): the options bag, of which only a possibly-supplied `layoutManager`
matters here. -/
structure GroupOptions where
  layoutManager : Option ManagerId := none
deriving DecidableEq, Repr

/-- The manager configuration a freshly built `Group` receives. -/
inductive GroupManagerCfg where
  /-- a fresh `new LayoutManager()` with the default strategy -/
  | defaultManager
  /-- a caller-supplied manager instance -/
  | suppliedManager (m : ManagerId)
deriving DecidableEq, Repr

/-- Result of `groupSVGElements`: either the lone object or a new `Group`. -/
inductive GroupSVGResult where
  | single (o : ObjId)
  | group (objects : List ObjId) (manager : GroupManagerCfg)
deriving DecidableEq, Repr

/-- `groupSVGElements(elements, options)`: return `elements[0]` when the
list has exactly one element, otherwise a new `Group` over the whole list
built with `{ layoutManager: new LayoutManager(), ...options }` — the spread
means a `layoutManager` supplied in `options` overrides the default. -/
def groupSVGElements (elements : List ObjId) (options : GroupOptions) :
    GroupSVGResult :=
  match elements with
  | [e] => GroupSVGResult.single e
  | _ =>
    GroupSVGResult.group elements
      (match options.layoutManager with
       | some m => GroupManagerCfg.suppliedManager m
       | none => GroupManagerCfg.defaultManager)

/-! ## Basic algebraic lemmas -/

theorem Point.add_zeroP (p : Point) : p.add Point.zeroP = p := by
  cases p with
  | mk x y => simp [Point.add, Point.zeroP]

theorem Point.transform_zeroP (t : TMat2D) :
    Point.transform Point.zeroP t true = Point.zeroP := by
  simp [Point.transform, Point.zeroP]

theorem Point.sub_self_eq_zeroP (p : Point) : p.subtract p = Point.zeroP := by
  cases p with
  | mk x y => simp [Point.subtract, Point.zeroP]

theorem Point.mk_xy (p : Point) : Point.mk p.x p.y = p := by
  cases p with
  | mk x y => rfl

/-- Folding a state-transformer over a list leaves any projection fixed by
every step fixed overall. -/
theorem foldl_fix {α β γ : Type} (f : β → α → β) (proj : β → γ)
    (h : ∀ b a, proj (f b a) = proj b) :
    ∀ (l : List α) (b : β), proj (l.foldl f b) = proj b := by
  intro l
  induction l with
  | nil => intro b; rfl
  | cons a t ih => intro b; rw [List.foldl_cons, ih, h]

/-! ## Frame lemmas: which helper touches which part of the world -/

@[simp] theorem unsubscribeW_objs (mid : ManagerId) (o : ObjId) (w : World) :
    (LayoutManagerState.unsubscribeW mid o w).objs = w.objs := rfl

@[simp] theorem unsubscribeW_managers (mid : ManagerId) (o : ObjId) (w : World) :
    (LayoutManagerState.unsubscribeW mid o w).managers = w.managers := rfl

@[simp] theorem unsubscribeW_paths (mid : ManagerId) (o : ObjId) (w : World) :
    (LayoutManagerState.unsubscribeW mid o w).paths = w.paths := rfl

@[simp] theorem unsubscribeW_nextPathRef (mid : ManagerId) (o : ObjId) (w : World) :
    (LayoutManagerState.unsubscribeW mid o w).nextPathRef = w.nextPathRef := rfl

@[simp] theorem subscribeW_objs (mid : ManagerId) (o : ObjId) (w : World) :
    (LayoutManagerState.subscribeW mid o w).objs = w.objs := rfl

@[simp] theorem subscribeW_paths (mid : ManagerId) (o : ObjId) (w : World) :
    (LayoutManagerState.subscribeW mid o w).paths = w.paths := rfl

@[simp] theorem subscribeW_nextPathRef (mid : ManagerId) (o : ObjId) (w : World) :
    (LayoutManagerState.subscribeW mid o w).nextPathRef = w.nextPathRef := rfl

/-- The manager fields other than the subscription map, as one projection. -/
def managerCore (w : World) (j : ManagerId) : Bool × Option StrategyId × StrategyId :=
  ((w.managers j).firstLayoutDone, (w.managers j).prevLayoutStrategy,
   (w.managers j).strategy)

@[simp] theorem unsubscribeW_managerCore (mid : ManagerId) (o : ObjId) (w : World)
    (j : ManagerId) :
    managerCore (LayoutManagerState.unsubscribeW mid o w) j = managerCore w j := rfl

theorem subscribeW_managerCore (mid : ManagerId) (o : ObjId) (w : World)
    (j : ManagerId) :
    managerCore (LayoutManagerState.subscribeW mid o w) j = managerCore w j := by
  unfold LayoutManagerState.subscribeW World.updateManager managerCore
  by_cases h : j = mid <;> simp [h]

theorem onBeforeLayoutW_objs (mid : ManagerId) (sc : StrictLayoutContext) (w : World) :
    (onBeforeLayoutW mid sc w).1.objs = w.objs := by
  unfold onBeforeLayoutW
  split
  · exact foldl_fix _ World.objs (fun b a => subscribeW_objs mid a b) _ w
  · split
    · exact foldl_fix _ World.objs (fun b a => unsubscribeW_objs mid a b) _ w
    · rfl

theorem onBeforeLayoutW_paths (mid : ManagerId) (sc : StrictLayoutContext) (w : World) :
    (onBeforeLayoutW mid sc w).1.paths = w.paths := by
  unfold onBeforeLayoutW
  split
  · exact foldl_fix _ World.paths (fun b a => subscribeW_paths mid a b) _ w
  · split
    · exact foldl_fix _ World.paths (fun b a => unsubscribeW_paths mid a b) _ w
    · rfl

theorem onBeforeLayoutW_nextPathRef (mid : ManagerId) (sc : StrictLayoutContext)
    (w : World) : (onBeforeLayoutW mid sc w).1.nextPathRef = w.nextPathRef := by
  unfold onBeforeLayoutW
  split
  · exact foldl_fix _ World.nextPathRef (fun b a => subscribeW_nextPathRef mid a b) _ w
  · split
    · exact foldl_fix _ World.nextPathRef (fun b a => unsubscribeW_nextPathRef mid a b) _ w
    · rfl

theorem onBeforeLayoutW_managerCore (mid : ManagerId) (sc : StrictLayoutContext)
    (w : World) (j : ManagerId) :
    managerCore (onBeforeLayoutW mid sc w).1 j = managerCore w j := by
  unfold onBeforeLayoutW
  split
  · exact foldl_fix _ (fun b => managerCore b j)
      (fun b a => subscribeW_managerCore mid a b j) _ w
  · split
    · exact foldl_fix _ (fun b => managerCore b j)
        (fun b a => unsubscribeW_managerCore mid a b j) _ w
    · rfl

theorem onBeforeLayoutW_effs (mid : ManagerId) (sc : StrictLayoutContext) (w : World) :
    (onBeforeLayoutW mid sc w).2 = [LEffect.beforeHook sc, LEffect.beforeEvent sc] := by
  unfold onBeforeLayoutW
  split
  · rfl
  · split <;> rfl

/-- The structural fields of an object that no layout pass ever writes. -/
def objShape (w : World) (o : ObjId) :
    Option ObjId × Option ManagerId × Option ObjId × List ObjId × ℚ × ℚ × TMat2D :=
  ((w.objs o).group, (w.objs o).layoutManager, (w.objs o).clipPath,
   (w.objs o).objects, (w.objs o).originX, (w.objs o).originY, (w.objs o).ownMatrix)

theorem onBeforeLayoutW_objShape (mid : ManagerId) (sc : StrictLayoutContext)
    (w : World) (o : ObjId) :
    objShape (onBeforeLayoutW mid sc w).1 o = objShape w o := by
  unfold objShape
  rw [onBeforeLayoutW_objs]

/-- The parts of the world other than the object table, as one projection. -/
def worldRest (w : World) :
    (ManagerId → LayoutManagerState) × List (Nat × ObjId) × Nat × (PathRef → List ObjId) × Nat :=
  (w.managers, w.listeners, w.nextListenerId, w.paths, w.nextPathRef)

@[simp] theorem updateObj_worldRest (w : World) (i : ObjId) (f : ObjState → ObjState) :
    worldRest (w.updateObj i f) = worldRest w := rfl

theorem updateObj_objShape (w : World) (i : ObjId) (f : ObjState → ObjState)
    (hf : ∀ x, (f x).group = x.group ∧ (f x).layoutManager = x.layoutManager
      ∧ (f x).clipPath = x.clipPath ∧ (f x).objects = x.objects
      ∧ (f x).originX = x.originX ∧ (f x).originY = x.originY
      ∧ (f x).ownMatrix = x.ownMatrix) (o : ObjId) :
    objShape (w.updateObj i f) o = objShape w o := by
  unfold objShape World.updateObj
  by_cases h : o = i
  · simp only [h, if_pos rfl]
    obtain ⟨h1, h2, h3, h4, h5, h6, h7⟩ := hf (w.objs i)
    simp [h1, h2, h3, h4, h5, h6, h7]
  · simp [h]

theorem layoutObjectW_objShape (lr : RequiredLayoutResult) (oid : ObjId) (w : World)
    (o : ObjId) : objShape (layoutObjectW lr oid w) o = objShape w o := by
  unfold layoutObjectW
  exact updateObj_objShape w oid _ (fun x => by simp) o

@[simp] theorem layoutObjectW_worldRest (lr : RequiredLayoutResult) (oid : ObjId)
    (w : World) : worldRest (layoutObjectW lr oid w) = worldRest w := rfl

theorem layoutChildrenW_objShape (sc : StrictLayoutContext)
    (lr : RequiredLayoutResult) (w : World) (o : ObjId) :
    objShape (layoutChildrenW sc lr w) o = objShape w o := by
  unfold layoutChildrenW
  split
  · exact foldl_fix _ (fun b => objShape b o)
      (fun b a => by
        split
        · exact layoutObjectW_objShape lr a b o
        · rfl) _ w
  · rfl

theorem layoutChildrenW_worldRest (sc : StrictLayoutContext)
    (lr : RequiredLayoutResult) (w : World) :
    worldRest (layoutChildrenW sc lr w) = worldRest w := by
  unfold layoutChildrenW
  split
  · exact foldl_fix _ worldRest
      (fun b a => by
        split
        · rfl
        · rfl) _ w
  · rfl

theorem layoutClipPathW_objShape (env : StrategyEnv) (sc : StrictLayoutContext)
    (lr : RequiredLayoutResult) (w : World) (o : ObjId) :
    objShape (layoutClipPathW env sc lr w) o = objShape w o := by
  unfold layoutClipPathW
  split
  · split
    · exact layoutObjectW_objShape lr _ w o
    · rfl
  · rfl

theorem layoutClipPathW_worldRest (env : StrategyEnv) (sc : StrictLayoutContext)
    (lr : RequiredLayoutResult) (w : World) :
    worldRest (layoutClipPathW env sc lr w) = worldRest w := by
  unfold layoutClipPathW
  split
  · split
    · rfl
    · rfl
  · rfl

theorem layoutObjectsW_objShape (env : StrategyEnv) (sc : StrictLayoutContext)
    (lr : RequiredLayoutResult) (w : World) (o : ObjId) :
    objShape (layoutObjectsW env sc lr w) o = objShape w o := by
  unfold layoutObjectsW
  rw [layoutClipPathW_objShape, layoutChildrenW_objShape]

theorem layoutObjectsW_worldRest (env : StrategyEnv) (sc : StrictLayoutContext)
    (lr : RequiredLayoutResult) (w : World) :
    worldRest (layoutObjectsW env sc lr w) = worldRest w := by
  unfold layoutObjectsW
  rw [layoutClipPathW_worldRest, layoutChildrenW_worldRest]

theorem commitPositionW_objShape (sc : StrictLayoutContext)
    (lr : RequiredLayoutResult) (w : World) (o : ObjId) :
    objShape (commitPositionW sc lr w) o = objShape w o := by
  unfold commitPositionW
  split
  · exact updateObj_objShape w sc.target _ (fun x => by simp) o
  · split
    · exact updateObj_objShape w sc.target _
        (fun x => by simp [ObjState.setPositionByOriginCenter]) o
    · rfl

theorem commitPositionW_worldRest (sc : StrictLayoutContext)
    (lr : RequiredLayoutResult) (w : World) :
    worldRest (commitPositionW sc lr w) = worldRest w := by
  unfold commitPositionW
  split
  · rfl
  · split
    · rfl
    · rfl

theorem commitInvalidateW_objShape (sc : StrictLayoutContext) (w : World)
    (o : ObjId) : objShape (commitInvalidateW sc w) o = objShape w o := by
  unfold commitInvalidateW
  split
  · exact updateObj_objShape w sc.target _ (fun x => by simp) o
  · rfl

theorem commitInvalidateW_worldRest (sc : StrictLayoutContext) (w : World) :
    worldRest (commitInvalidateW sc w) = worldRest w := by
  unfold commitInvalidateW
  split
  · rfl
  · rfl

theorem commitLayoutW_objShape (env : StrategyEnv) (sc : StrictLayoutContext)
    (lr : RequiredLayoutResult) (w : World) (o : ObjId) :
    objShape (commitLayoutW env sc lr w) o = objShape w o := by
  unfold commitLayoutW
  rw [updateObj_objShape _ sc.target _ (fun x => by simp) o,
    commitInvalidateW_objShape, commitPositionW_objShape, layoutObjectsW_objShape,
    updateObj_objShape _ sc.target _ (fun x => by simp) o]

theorem commitLayoutW_worldRest (env : StrategyEnv) (sc : StrictLayoutContext)
    (lr : RequiredLayoutResult) (w : World) :
    worldRest (commitLayoutW env sc lr w) = worldRest w := by
  unfold commitLayoutW
  rw [updateObj_worldRest, commitInvalidateW_worldRest, commitPositionW_worldRest,
    layoutObjectsW_worldRest, updateObj_worldRest]


@[simp] theorem updateManager_objs (w : World) (i : ManagerId)
    (f : LayoutManagerState → LayoutManagerState) :
    (w.updateManager i f).objs = w.objs := rfl

@[simp] theorem updateManager_paths (w : World) (i : ManagerId)
    (f : LayoutManagerState → LayoutManagerState) :
    (w.updateManager i f).paths = w.paths := rfl

@[simp] theorem updateManager_nextPathRef (w : World) (i : ManagerId)
    (f : LayoutManagerState → LayoutManagerState) :
    (w.updateManager i f).nextPathRef = w.nextPathRef := rfl

@[simp] theorem updateManager_listeners (w : World) (i : ManagerId)
    (f : LayoutManagerState → LayoutManagerState) :
    (w.updateManager i f).listeners = w.listeners := rfl

theorem computePhase_objShape (env : StrategyEnv) (m : LayoutManagerState)
    (sc : StrictLayoutContext) (w1 : World) (o : ObjId) :
    objShape (computePhase env m sc w1).1 o = objShape w1 o := by
  unfold computePhase
  split
  · exact commitLayoutW_objShape env sc _ w1 o
  · split
    · rfl
    · rfl

theorem computePhase_paths (env : StrategyEnv) (m : LayoutManagerState)
    (sc : StrictLayoutContext) (w1 : World) :
    (computePhase env m sc w1).1.paths = w1.paths
    ∧ (computePhase env m sc w1).1.nextPathRef = w1.nextPathRef := by
  unfold computePhase
  split
  · next lr heq =>
      have h := commitLayoutW_worldRest env sc lr w1
      exact ⟨congrArg (fun t => t.2.2.2.1) h, congrArg (fun t => t.2.2.2.2) h⟩
  · split
    · exact ⟨rfl, rfl⟩
    · exact ⟨rfl, rfl⟩

/-- When the target has no parent group, the after-hook neither touches the
world nor requests bubbling. -/
theorem onAfterLayoutW_noGroup (sc : StrictLayoutContext)
    (lr : Option RequiredLayoutResult) (w : World)
    (h : (w.objs sc.target).group = none) :
    onAfterLayoutW sc lr w
      = (w, [LEffect.afterHook sc lr, LEffect.afterEvent sc lr], none) := by
  unfold onAfterLayoutW
  rw [h]

/-- Unfolding equation for a non-gated `performLayout` call. -/
theorem performLayout_succ_not_gated (env : StrategyEnv) (fuel : Nat)
    (mid : ManagerId) (context : LayoutContext) (w : World)
    (hgate : ¬(¬(w.managers mid).firstLayoutDone = true
      ∧ context.type ≠ LayoutType.initialization)) :
    performLayout env (fuel + 1) mid context w
      = performLayoutBody env (performLayout env fuel) mid context w := by
  unfold performLayout
  rw [if_neg hgate]

/-- A non-gated pass on a parentless target: the whole call is the
before-hook, the compute phase, the two manager-flag writes and the
after-hook effects — no bubbling. -/
theorem performLayout_noBubble (env : StrategyEnv) (fuel : Nat) (mid : ManagerId)
    (context : LayoutContext) (w : World)
    (hgate : ¬(¬(w.managers mid).firstLayoutDone = true
      ∧ context.type ≠ LayoutType.initialization))
    (hng : (w.objs context.target).group = none) :
    performLayout env (fuel + 1) mid context w
      = (((computePhase env (w.managers mid)
            (buildStrictContext (w.managers mid) context)
            (onBeforeLayoutW mid (buildStrictContext (w.managers mid) context) w).1).1.updateManager
              mid (fun mm => { mm with firstLayoutDone := true })).updateManager mid
            (fun mm =>
              { mm with
                prevLayoutStrategy :=
                  some (buildStrictContext (w.managers mid) context).strategy }),
         (onBeforeLayoutW mid (buildStrictContext (w.managers mid) context) w).2
           ++ [LEffect.afterHook (buildStrictContext (w.managers mid) context)
                (computePhase env (w.managers mid)
                  (buildStrictContext (w.managers mid) context)
                  (onBeforeLayoutW mid (buildStrictContext (w.managers mid) context) w).1).2,
               LEffect.afterEvent (buildStrictContext (w.managers mid) context)
                (computePhase env (w.managers mid)
                  (buildStrictContext (w.managers mid) context)
                  (onBeforeLayoutW mid (buildStrictContext (w.managers mid) context) w).1).2]) := by
  rw [performLayout_succ_not_gated env fuel mid context w hgate]
  have hng2 : ((((computePhase env (w.managers mid)
      (buildStrictContext (w.managers mid) context)
      (onBeforeLayoutW mid (buildStrictContext (w.managers mid) context) w).1).1.updateManager
        mid (fun mm => { mm with firstLayoutDone := true }))).objs
      (buildStrictContext (w.managers mid) context).target).group = none := by
    rw [updateManager_objs]
    have h1 := congrArg Prod.fst (computePhase_objShape env (w.managers mid)
      (buildStrictContext (w.managers mid) context)
      (onBeforeLayoutW mid (buildStrictContext (w.managers mid) context) w).1
      (buildStrictContext (w.managers mid) context).target)
    have h2 := congrArg Prod.fst (onBeforeLayoutW_objShape mid
      (buildStrictContext (w.managers mid) context) w
      (buildStrictContext (w.managers mid) context).target)
    simp only [objShape] at h1 h2
    rw [h1, h2]
    exact hng
  unfold performLayoutBody
  rw [onAfterLayoutW_noGroup _ _ _ hng2]

/-- A non-gated pass always ends by recording the strict context's strategy
as the manager's previous strategy. -/
theorem performLayout_records_prev (env : StrategyEnv) (fuel : Nat)
    (mid : ManagerId) (context : LayoutContext) (w : World)
    (hgate : ¬(¬(w.managers mid).firstLayoutDone = true
      ∧ context.type ≠ LayoutType.initialization)) :
    ((performLayout env (fuel + 1) mid context w).1.managers mid).prevLayoutStrategy
      = some (buildStrictContext (w.managers mid) context).strategy := by
  rw [performLayout_succ_not_gated env fuel mid context w hgate]
  unfold performLayoutBody
  split
  · simp [World.updateManager]
  · simp [World.updateManager]

@[simp] theorem buildStrictContext_target (m : LayoutManagerState)
    (ctx : LayoutContext) : (buildStrictContext m ctx).target = ctx.target := rfl

@[simp] theorem buildStrictContext_type (m : LayoutManagerState)
    (ctx : LayoutContext) : (buildStrictContext m ctx).type = ctx.type := rfl

@[simp] theorem buildStrictContext_targets (m : LayoutManagerState)
    (ctx : LayoutContext) : (buildStrictContext m ctx).targets = ctx.targets := rfl

@[simp] theorem buildStrictContext_path (m : LayoutManagerState)
    (ctx : LayoutContext) : (buildStrictContext m ctx).path = ctx.path := rfl

theorem mapGet_mapSet_self (m : List (ObjId × List Nat)) (o : ObjId)
    (v : List Nat) : mapGet (mapSet m o v) o = some v := by
  unfold mapSet
  split
  · next hfound =>
    have haux : ∀ (l : List (ObjId × List Nat)),
        (l.find? (fun p => p.1 = o)).isSome = true →
        mapGet (l.map (fun p => if p.1 = o then (o, v) else p)) o = some v := by
      intro l
      induction l with
      | nil => intro h; simp [List.find?] at h
      | cons hd tl ih =>
        intro h
        by_cases hh : hd.1 = o
        · unfold mapGet
          simp [List.find?_cons, hh]
        · have h' : (tl.find? (fun p => p.1 = o)).isSome = true := by
            simpa [List.find?_cons, hh] using h
          unfold mapGet at ih ⊢
          simpa [List.find?_cons, hh] using ih h'
    exact haux m hfound
  · next hnf =>
    have hmn : m.find? (fun p => p.1 = o) = none := by
      cases hf : m.find? (fun p => p.1 = o) with
      | none => rfl
      | some x => rw [hf] at hnf; simp at hnf
    unfold mapGet
    have haux : ∀ (l : List (ObjId × List Nat)),
        l.find? (fun p => p.1 = o) = none →
        (l ++ [(o, v)]).find? (fun p => p.1 = o) = some (o, v) := by
      intro l
      induction l with
      | nil => intro _; simp [List.find?_cons]
      | cons hd tl ih =>
        intro h
        by_cases hh : hd.1 = o
        · simp [List.find?_cons, hh] at h
        · have h' : tl.find? (fun p => p.1 = o) = none := by
            simpa [List.find?_cons, hh] using h
          simpa [List.find?_cons, hh] using ih h'
    rw [haux m hmn]
    rfl

theorem unsubFold_subset (mid : ManagerId) :
    ∀ (ts : List ObjId) (w : World) (l : Nat × ObjId),
    l ∈ (ts.foldl (fun acc x => LayoutManagerState.unsubscribeW mid x acc) w).listeners
    → l ∈ w.listeners := by
  intro ts
  induction ts with
  | nil => intro w l h; exact h
  | cons t rest ih =>
    intro w l h
    rw [List.foldl_cons] at h
    have h' := ih (LayoutManagerState.unsubscribeW mid t w) l h
    exact List.mem_of_mem_filter h'

theorem unsubFold_managers (mid : ManagerId) :
    ∀ (ts : List ObjId) (w : World),
    (ts.foldl (fun acc x => LayoutManagerState.unsubscribeW mid x acc) w).managers
      = w.managers := by
  intro ts
  exact foldl_fix (fun acc x => LayoutManagerState.unsubscribeW mid x acc)
    World.managers (fun b a => rfl) ts

theorem unsubFold_clears (mid : ManagerId) :
    ∀ (ts : List ObjId) (w : World) (o : ObjId),
    o ∈ ts →
    (∀ l ∈ w.listeners, l.2 = o →
      l.1 ∈ (mapGet (w.managers mid).subscriptions o).getD []) →
    ∀ l ∈ (ts.foldl (fun acc x => LayoutManagerState.unsubscribeW mid x acc) w).listeners,
      l.2 ≠ o := by
  intro ts
  induction ts with
  | nil => intro w o ho; exact absurd ho (List.not_mem_nil o)
  | cons t rest ih =>
    intro w o ho hinv l hl
    rw [List.foldl_cons] at hl
    by_cases hto : t = o
    · subst hto
      intro h2
      have hl' := unsubFold_subset mid rest _ l hl
      have hmem := List.mem_of_mem_filter hl'
      have hpred := List.of_mem_filter hl'
      rw [decide_eq_true_eq] at hpred
      exact hpred (hinv l hmem h2)
    · cases ho with
      | head => exact absurd rfl hto
      | tail _ ho' =>
        refine ih (LayoutManagerState.unsubscribeW mid t w) o ho' ?_ l hl
        intro l' hl' h2'
        exact hinv l' (List.mem_of_mem_filter hl') h2'

theorem onAfterLayoutW_preserves (sc : StrictLayoutContext)
    (lr : Option RequiredLayoutResult) (w : World) :
    (onAfterLayoutW sc lr w).1.objs = w.objs
    ∧ (onAfterLayoutW sc lr w).1.managers = w.managers
    ∧ (onAfterLayoutW sc lr w).1.listeners = w.listeners
    ∧ (onAfterLayoutW sc lr w).1.nextListenerId = w.nextListenerId := by
  unfold onAfterLayoutW
  split
  · split
    · unfold pushPath
      split
      · exact ⟨rfl, rfl, rfl, rfl⟩
      · exact ⟨rfl, rfl, rfl, rfl⟩
    · exact ⟨rfl, rfl, rfl, rfl⟩
  · exact ⟨rfl, rfl, rfl, rfl⟩

theorem onAfterLayoutW_call_type (sc : StrictLayoutContext)
    (lr : Option RequiredLayoutResult) (w : World) (pm : ManagerId)
    (bctx : LayoutContext)
    (h : (onAfterLayoutW sc lr w).2.2 = some (pm, bctx)) :
    bctx.type = sc.type := by
  unfold onAfterLayoutW at h
  split at h
  · split at h
    · simp only [Option.some.injEq] at h
      have : bctx = bubbledContext sc _ (pushPath sc.target sc.path w).2 :=
        (congrArg Prod.snd h).symm
      rw [this]
      rfl
    · simp at h
  · simp at h

theorem computePhase_listeners (env : StrategyEnv) (m : LayoutManagerState)
    (sc : StrictLayoutContext) (w1 : World) :
    (computePhase env m sc w1).1.listeners = w1.listeners
    ∧ (computePhase env m sc w1).1.nextListenerId = w1.nextListenerId := by
  unfold computePhase
  split
  · next lr heq =>
      have h := commitLayoutW_worldRest env sc lr w1
      exact ⟨congrArg (fun t => t.2.1) h, congrArg (fun t => t.2.2.1) h⟩
  · split
    · exact ⟨rfl, rfl⟩
    · exact ⟨rfl, rfl⟩

theorem onBeforeLayoutW_removed (mid : ManagerId) (sc : StrictLayoutContext)
    (w : World) (h : sc.type = LayoutType.removed) :
    (onBeforeLayoutW mid sc w).1
      = sc.targets.foldl (fun acc x => LayoutManagerState.unsubscribeW mid x acc) w := by
  unfold onBeforeLayoutW
  rw [h]
  simp

/-- One non-gated `removed`-typed body never adds listeners: whatever
survives the pass was already an active listener after the before-hook's
unsubscribe fold (assuming the recursion used for bubbling also only
removes listeners on `removed` contexts). -/
theorem performLayoutBody_removed_listeners (env : StrategyEnv)
    (recur : ManagerId → LayoutContext → World → World × List LEffect)
    (mid : ManagerId) (ctx : LayoutContext) (w : World)
    (htype : ctx.type = LayoutType.removed)
    (hrec : ∀ (pm : ManagerId) (bctx : LayoutContext) (w' : World),
      bctx.type = LayoutType.removed →
      ∀ l ∈ (recur pm bctx w').1.listeners, l ∈ w'.listeners) :
    ∀ l ∈ (performLayoutBody env recur mid ctx w).1.listeners,
      l ∈ (onBeforeLayoutW mid (buildStrictContext (w.managers mid) ctx) w).1.listeners := by
  intro l hl
  unfold performLayoutBody at hl
  split at hl
  · next w4 effs2 pc hma =>
    rw [updateManager_listeners] at hl
    have htype2 : pc.2.type = LayoutType.removed := by
      have h1 := onAfterLayoutW_call_type
        (buildStrictContext (w.managers mid) ctx) _ _ pc.1 pc.2 (by rw [hma])
      rw [buildStrictContext_type, htype] at h1
      exact h1
    have hl2 := hrec pc.1 pc.2 w4 htype2 l hl
    have hw4eq : w4 = (onAfterLayoutW (buildStrictContext (w.managers mid) ctx)
        (computePhase env (w.managers mid) (buildStrictContext (w.managers mid) ctx)
          (onBeforeLayoutW mid (buildStrictContext (w.managers mid) ctx) w).1).2
        ((computePhase env (w.managers mid) (buildStrictContext (w.managers mid) ctx)
          (onBeforeLayoutW mid (buildStrictContext (w.managers mid) ctx) w).1).1.updateManager
          mid (fun mm => { mm with firstLayoutDone := true }))).1 := by
      rw [hma]
    have hw4 : w4.listeners
        = ((computePhase env (w.managers mid)
            (buildStrictContext (w.managers mid) ctx)
            (onBeforeLayoutW mid (buildStrictContext (w.managers mid) ctx) w).1).1.updateManager
            mid (fun mm => { mm with firstLayoutDone := true })).listeners := by
      rw [hw4eq]
      exact (onAfterLayoutW_preserves _ _ _).2.2.1
    rw [hw4, updateManager_listeners, (computePhase_listeners env _ _ _).1] at hl2
    exact hl2
  · next w4 effs2 hma =>
    rw [updateManager_listeners] at hl
    have hw4eq : w4 = (onAfterLayoutW (buildStrictContext (w.managers mid) ctx)
        (computePhase env (w.managers mid) (buildStrictContext (w.managers mid) ctx)
          (onBeforeLayoutW mid (buildStrictContext (w.managers mid) ctx) w).1).2
        ((computePhase env (w.managers mid) (buildStrictContext (w.managers mid) ctx)
          (onBeforeLayoutW mid (buildStrictContext (w.managers mid) ctx) w).1).1.updateManager
          mid (fun mm => { mm with firstLayoutDone := true }))).1 := by
      rw [hma]
    have hw4 : w4.listeners
        = ((computePhase env (w.managers mid)
            (buildStrictContext (w.managers mid) ctx)
            (onBeforeLayoutW mid (buildStrictContext (w.managers mid) ctx) w).1).1.updateManager
            mid (fun mm => { mm with firstLayoutDone := true })).listeners := by
      rw [hw4eq]
      exact (onAfterLayoutW_preserves _ _ _).2.2.1
    rw [hw4, updateManager_listeners, (computePhase_listeners env _ _ _).1] at hl
    exact hl

/-- In a `removed`-typed pass (at any fuel, bubbling included), listeners
are only ever removed, never added. -/
theorem performLayout_removed_subset (env : StrategyEnv) :
    ∀ (fuel : Nat) (mid : ManagerId) (ctx : LayoutContext) (w : World),
    ctx.type = LayoutType.removed →
    ∀ l ∈ (performLayout env fuel mid ctx w).1.listeners, l ∈ w.listeners := by
  intro fuel
  induction fuel with
  | zero => intro mid ctx w _ l hl; exact hl
  | succ n ih =>
    intro mid ctx w htype l hl
    unfold performLayout at hl
    split at hl
    · exact hl
    · have hb := performLayoutBody_removed_listeners env (performLayout env n)
        mid ctx w htype (fun pm bctx w' ht => ih pm bctx w' ht) l hl
      have hbefore : (onBeforeLayoutW mid (buildStrictContext (w.managers mid) ctx) w).1
          = (buildStrictContext (w.managers mid) ctx).targets.foldl
              (fun acc x => LayoutManagerState.unsubscribeW mid x acc) w :=
        onBeforeLayoutW_removed mid _ w (by rw [buildStrictContext_type, htype])
      rw [hbefore] at hb
      exact unsubFold_subset mid _ w l hb

theorem subscribeW_listeners (mid : ManagerId) (o : ObjId) (w : World) :
    (LayoutManagerState.subscribeW mid o w).listeners
      = (LayoutManagerState.unsubscribeW mid o w).listeners
        ++ ((List.range subscribeCount).map (fun i => w.nextListenerId + i)).map
            (fun i => (i, o)) := rfl

theorem unsubscribeW_listeners (mid : ManagerId) (o : ObjId) (w : World) :
    (LayoutManagerState.unsubscribeW mid o w).listeners
      = w.listeners.filter (fun l =>
          decide (l.1 ∉ (mapGet (w.managers mid).subscriptions o).getD [])) := rfl

theorem subscribeW_subsMap (mid : ManagerId) (o : ObjId) (w : World) :
    ((LayoutManagerState.subscribeW mid o w).managers mid).subscriptions
      = mapSet (w.managers mid).subscriptions o
          ((List.range subscribeCount).map (fun i => w.nextListenerId + i)) := by
  unfold LayoutManagerState.subscribeW World.updateManager
  simp
  rfl

/-- Whether an effect is a bubbling recursion into a parent manager. -/
def LEffect.isBubble : LEffect → Bool
  | LEffect.bubble _ _ => true
  | _ => false

theorem objShape_group {w w' : World} {o : ObjId}
    (h : objShape w' o = objShape w o) :
    (w'.objs o).group = (w.objs o).group := congrArg Prod.fst h

theorem objShape_layoutManager {w w' : World} {o : ObjId}
    (h : objShape w' o = objShape w o) :
    (w'.objs o).layoutManager = (w.objs o).layoutManager :=
  congrArg (fun t => t.2.1) h

theorem pushPath_objs (tid : ObjId) (p : Option PathRef) (w : World) :
    (pushPath tid p w).1.objs = w.objs := by
  cases p with
  | some r => rfl
  | none => rfl

theorem pushPath_self (tid : ObjId) (p : Option PathRef) (w : World) :
    (pushPath tid p w).1.paths (pushPath tid p w).2
      = (match p with | some r => w.paths r | none => []) ++ [tid] := by
  cases p with
  | some r => unfold pushPath; simp
  | none => unfold pushPath; simp

theorem pushPath_other (tid : ObjId) (p : Option PathRef) (w : World)
    (r' : PathRef) (h : r' ≠ (pushPath tid p w).2) :
    (pushPath tid p w).1.paths r' = w.paths r' := by
  cases p with
  | some r => unfold pushPath at h ⊢; simp [h]
  | none => unfold pushPath at h ⊢; simp [h]

theorem pushPath_ref (tid : ObjId) (p : Option PathRef) (w : World) :
    (pushPath tid p w).2 = (match p with | some r => r | none => w.nextPathRef) := by
  cases p with
  | some r => rfl
  | none => rfl

/-- The after-hook when the target's parent group has a layout manager:
push onto the path and request the bubbled recursion. -/
theorem onAfterLayoutW_withParent (sc : StrictLayoutContext)
    (lr : Option RequiredLayoutResult) (w : World) (gid : ObjId) (pm : ManagerId)
    (hg : (w.objs sc.target).group = some gid)
    (hpm : (w.objs gid).layoutManager = some pm) :
    onAfterLayoutW sc lr w
      = ((pushPath sc.target sc.path w).1,
         [LEffect.afterHook sc lr, LEffect.afterEvent sc lr],
         some (pm, bubbledContext sc gid (pushPath sc.target sc.path w).2)) := by
  unfold onAfterLayoutW
  rw [hg]
  simp only [hpm]

/-- A pass on a parentless target touches no path array and emits no
bubble effect (at any fuel). -/
theorem performLayout_noParent_paths (env : StrategyEnv) (fuel : Nat)
    (mid : ManagerId) (ctx : LayoutContext) (w : World)
    (hng : (w.objs ctx.target).group = none) :
    (performLayout env fuel mid ctx w).1.paths = w.paths
    ∧ (performLayout env fuel mid ctx w).2.filter LEffect.isBubble = [] := by
  cases fuel with
  | zero => exact ⟨rfl, rfl⟩
  | succ n =>
    by_cases hgate : ¬(w.managers mid).firstLayoutDone = true
        ∧ ctx.type ≠ LayoutType.initialization
    · unfold performLayout
      rw [if_pos hgate]
      exact ⟨rfl, rfl⟩
    · rw [performLayout_noBubble env n mid ctx w hgate hng]
      constructor
      · rw [updateManager_paths, updateManager_paths,
          (computePhase_paths env _ _ _).1, onBeforeLayoutW_paths]
      · rw [onBeforeLayoutW_effs]
        rfl

/-- The master bubbling lemma: a non-gated pass on a container whose parent
group has a manager and is itself top-level bubbles exactly once — the
single `bubble` effect targets the parent manager with the child's strict
context re-targeted at the parent, the target is appended to the context's
path array (a fresh array when the context carried none), and every other
path array is untouched. -/
theorem performLayout_bubble_master (env : StrategyEnv) (fuel : Nat)
    (mid : ManagerId) (ctx : LayoutContext) (w : World) (bTid : ObjId)
    (pm : ManagerId)
    (hgate : ¬(¬(w.managers mid).firstLayoutDone = true
      ∧ ctx.type ≠ LayoutType.initialization))
    (hab : (w.objs ctx.target).group = some bTid)
    (hpm : (w.objs bTid).layoutManager = some pm)
    (hbtop : (w.objs bTid).group = none) :
    (performLayout env (fuel + 2) mid ctx w).2.filter LEffect.isBubble
      = [LEffect.bubble pm
          (bubbledContext (buildStrictContext (w.managers mid) ctx) bTid
            (match ctx.path with | some r => r | none => w.nextPathRef))]
    ∧ (performLayout env (fuel + 2) mid ctx w).1.paths
        (match ctx.path with | some r => r | none => w.nextPathRef)
      = (match ctx.path with | some r => w.paths r | none => []) ++ [ctx.target]
    ∧ (∀ r', r' ≠ (match ctx.path with | some r => r | none => w.nextPathRef) →
        (performLayout env (fuel + 2) mid ctx w).1.paths r' = w.paths r') := by
  have hE : performLayout env (fuel + 2) mid ctx w
      = performLayoutBody env (performLayout env (fuel + 1)) mid ctx w :=
    performLayout_succ_not_gated env (fuel + 1) mid ctx w hgate
  rw [hE]
  unfold performLayoutBody
  set sc := buildStrictContext (w.managers mid) ctx with hsc
  set w3 := ((computePhase env (w.managers mid) sc
      (onBeforeLayoutW mid sc w).1).1.updateManager mid
      (fun mm => { mm with firstLayoutDone := true })) with hw3
  have h3objsG : ∀ o, (w3.objs o).group = (w.objs o).group := by
    intro o
    rw [hw3, updateManager_objs,
      objShape_group (computePhase_objShape env (w.managers mid) sc _ o),
      onBeforeLayoutW_objs]
  have h3objsL : ∀ o, (w3.objs o).layoutManager = (w.objs o).layoutManager := by
    intro o
    rw [hw3, updateManager_objs,
      objShape_layoutManager (computePhase_objShape env (w.managers mid) sc _ o),
      onBeforeLayoutW_objs]
  have h3paths : w3.paths = w.paths := by
    rw [hw3, updateManager_paths, (computePhase_paths env _ _ _).1,
      onBeforeLayoutW_paths]
  have h3npr : w3.nextPathRef = w.nextPathRef := by
    rw [hw3, updateManager_nextPathRef, (computePhase_paths env _ _ _).2,
      onBeforeLayoutW_nextPathRef]
  have hg3 : (w3.objs sc.target).group = some bTid := by
    rw [h3objsG, buildStrictContext_target]
    exact hab
  have hpm3 : (w3.objs bTid).layoutManager = some pm := by
    rw [h3objsL]
    exact hpm
  have hma := onAfterLayoutW_withParent sc
    (computePhase env (w.managers mid) sc (onBeforeLayoutW mid sc w).1).2 w3
    bTid pm hg3 hpm3
  rw [hma]
  have hscp : sc.path = ctx.path := buildStrictContext_path _ _
  have hrf : (pushPath sc.target sc.path w3).2
      = (match ctx.path with | some r => r | none => w.nextPathRef) := by
    rw [pushPath_ref, hscp, h3npr]
  have hng4 : ((pushPath sc.target sc.path w3).1.objs
      (bubbledContext sc bTid (pushPath sc.target sc.path w3).2).target).group
      = none := by
    rw [pushPath_objs]
    show (w3.objs bTid).group = none
    rw [h3objsG]
    exact hbtop
  have hinner := performLayout_noParent_paths env (fuel + 1) pm
    (bubbledContext sc bTid (pushPath sc.target sc.path w3).2)
    (pushPath sc.target sc.path w3).1 hng4
  refine ⟨?_, ?_, ?_⟩
  · rw [onBeforeLayoutW_effs]
    rw [List.filter_append, List.filter_append, List.filter_append]
    rw [hinner.2, hrf]
    rfl
  · rw [updateManager_paths, hinner.1, ← hrf,
      pushPath_self, hscp, h3paths, buildStrictContext_target]
  · intro r' hr'
    rw [updateManager_paths, hinner.1,
      pushPath_other sc.target sc.path w3 r' (by rw [hrf]; exact hr'), h3paths]

/-- The bundle `getLayoutResult` wraps a strategy result into. -/
def glrBundle (sc : StrictLayoutContext) (r : LayoutStrategyResult)
    (target : ObjState) : RequiredLayoutResult :=
  { result := r
    prevCenter := glrPrevCenter sc target
    nextCenter := ⟨r.centerX, r.centerY⟩
    offset := glrOffset sc target r }

theorem getLayoutResult_eq_of_calc (env : StrategyEnv) (sc : StrictLayoutContext)
    (w : World) (r : LayoutStrategyResult)
    (h : env.calcLayoutResult sc.strategy sc (w.objs sc.target).objects = some r) :
    getLayoutResult env sc w = some (glrBundle sc r (w.objs sc.target)) := by
  unfold getLayoutResult glrBundle
  rw [h]

theorem updateObj_objs_self (w : World) (i : ObjId) (f : ObjState → ObjState) :
    (w.updateObj i f).objs i = f (w.objs i) := by
  unfold World.updateObj
  simp

theorem updateObj_objs_ne (w : World) (i : ObjId) (f : ObjState → ObjState)
    (o : ObjId) (h : ¬o = i) : (w.updateObj i f).objs o = w.objs o := by
  unfold World.updateObj
  simp [h]

theorem updateManager_managers_self (w : World) (i : ManagerId)
    (f : LayoutManagerState → LayoutManagerState) :
    (w.updateManager i f).managers i = f (w.managers i) := by
  unfold World.updateManager
  simp

theorem objShape_objects {w w' : World} {o : ObjId}
    (h : objShape w' o = objShape w o) :
    (w'.objs o).objects = (w.objs o).objects :=
  congrArg (fun t => t.2.2.2.1) h

theorem objShape_clipPath {w w' : World} {o : ObjId}
    (h : objShape w' o = objShape w o) :
    (w'.objs o).clipPath = (w.objs o).clipPath :=
  congrArg (fun t => t.2.2.1) h

theorem objShape_originX {w w' : World} {o : ObjId}
    (h : objShape w' o = objShape w o) :
    (w'.objs o).originX = (w.objs o).originX :=
  congrArg (fun t => t.2.2.2.2.1) h

theorem objShape_originY {w w' : World} {o : ObjId}
    (h : objShape w' o = objShape w o) :
    (w'.objs o).originY = (w.objs o).originY :=
  congrArg (fun t => t.2.2.2.2.2.1) h

theorem objShape_ownMatrix {w w' : World} {o : ObjId}
    (h : objShape w' o = objShape w o) :
    (w'.objs o).ownMatrix = (w.objs o).ownMatrix :=
  congrArg (fun t => t.2.2.2.2.2.2) h

/-- The geometric fields of an object that only the commit phase writes. -/
def objGeom (w : World) (o : ObjId) : ℚ × ℚ × ℚ × ℚ :=
  ((w.objs o).left, (w.objs o).top, (w.objs o).width, (w.objs o).height)

theorem layoutObjectW_objGeom (lr : RequiredLayoutResult) (oid : ObjId)
    (w : World) (o : ObjId) : objGeom (layoutObjectW lr oid w) o = objGeom w o := by
  unfold layoutObjectW objGeom World.updateObj
  by_cases h : o = oid <;> simp [h]

theorem layoutChildrenW_objGeom (sc : StrictLayoutContext)
    (lr : RequiredLayoutResult) (w : World) (o : ObjId) :
    objGeom (layoutChildrenW sc lr w) o = objGeom w o := by
  unfold layoutChildrenW
  split
  · exact foldl_fix _ (fun b => objGeom b o)
      (fun b a => by
        split
        · exact layoutObjectW_objGeom lr a b o
        · rfl) _ w
  · rfl

theorem layoutClipPathW_objGeom (env : StrategyEnv) (sc : StrictLayoutContext)
    (lr : RequiredLayoutResult) (w : World) (o : ObjId) :
    objGeom (layoutClipPathW env sc lr w) o = objGeom w o := by
  unfold layoutClipPathW
  split
  · split
    · exact layoutObjectW_objGeom lr _ w o
    · rfl
  · rfl

theorem layoutObjectsW_objGeom (env : StrategyEnv) (sc : StrictLayoutContext)
    (lr : RequiredLayoutResult) (w : World) (o : ObjId) :
    objGeom (layoutObjectsW env sc lr w) o = objGeom w o := by
  unfold layoutObjectsW
  rw [layoutClipPathW_objGeom, layoutChildrenW_objGeom]

theorem objGeom_left {w w' : World} {o : ObjId}
    (h : objGeom w' o = objGeom w o) : (w'.objs o).left = (w.objs o).left :=
  congrArg Prod.fst h

theorem objGeom_top {w w' : World} {o : ObjId}
    (h : objGeom w' o = objGeom w o) : (w'.objs o).top = (w.objs o).top :=
  congrArg (fun t => t.2.1) h

theorem objGeom_width {w w' : World} {o : ObjId}
    (h : objGeom w' o = objGeom w o) : (w'.objs o).width = (w.objs o).width :=
  congrArg (fun t => t.2.2.1) h

theorem objGeom_height {w w' : World} {o : ObjId}
    (h : objGeom w' o = objGeom w o) : (w'.objs o).height = (w.objs o).height :=
  congrArg (fun t => t.2.2.2) h

theorem layoutObjectW_relXY_zero (lr : RequiredLayoutResult) (oid : ObjId)
    (w : World) (hoff : lr.offset = Point.zeroP) (o : ObjId) :
    ((layoutObjectW lr oid w).objs o).relXY = (w.objs o).relXY := by
  unfold layoutObjectW World.updateObj
  by_cases h : o = oid <;> simp [h, hoff, Point.add_zeroP]

theorem layoutChildrenW_relXY_zero (sc : StrictLayoutContext)
    (lr : RequiredLayoutResult) (w : World) (hoff : lr.offset = Point.zeroP)
    (o : ObjId) : ((layoutChildrenW sc lr w).objs o).relXY = (w.objs o).relXY := by
  unfold layoutChildrenW
  split
  · refine foldl_fix _ (fun b => (b.objs o).relXY) ?_ _ w
    intro b a
    split
    · exact layoutObjectW_relXY_zero lr a b hoff o
    · rfl
  · rfl

theorem layoutClipPathW_relXY_zero (env : StrategyEnv) (sc : StrictLayoutContext)
    (lr : RequiredLayoutResult) (w : World) (hoff : lr.offset = Point.zeroP)
    (o : ObjId) : ((layoutClipPathW env sc lr w).objs o).relXY = (w.objs o).relXY := by
  unfold layoutClipPathW
  split
  · split
    · exact layoutObjectW_relXY_zero lr _ w hoff o
    · rfl
  · rfl

theorem updateObj_relXY (w : World) (i : ObjId) (f : ObjState → ObjState)
    (hf : ∀ x, (f x).relXY = x.relXY) (o : ObjId) :
    ((w.updateObj i f).objs o).relXY = (w.objs o).relXY := by
  unfold World.updateObj
  by_cases h : o = i <;> simp [h, hf]

/-- Committing a layout result with a zero offset moves nothing: every
object's stored relative position is unchanged. -/
theorem commitLayoutW_relXY_zero (env : StrategyEnv) (sc : StrictLayoutContext)
    (lr : RequiredLayoutResult) (w : World) (hoff : lr.offset = Point.zeroP)
    (o : ObjId) : ((commitLayoutW env sc lr w).objs o).relXY = (w.objs o).relXY := by
  unfold commitLayoutW
  have h5 : ∀ (w' : World),
      ((w'.updateObj sc.target (fun o => { o with dirty := true })).objs o).relXY
        = (w'.objs o).relXY := by
    intro w'
    refine updateObj_relXY w' sc.target _ ?_ o
    intro x
    rfl
  rw [h5]
  have h4 : ∀ (w' : World),
      ((commitInvalidateW sc w').objs o).relXY = (w'.objs o).relXY := by
    intro w'
    unfold commitInvalidateW
    split
    · refine updateObj_relXY w' sc.target _ ?_ o
      intro x
      rfl
    · rfl
  rw [h4]
  have h3 : ∀ (w' : World),
      ((commitPositionW sc lr w').objs o).relXY = (w'.objs o).relXY := by
    intro w'
    unfold commitPositionW
    split
    · refine updateObj_relXY w' sc.target _ ?_ o
      intro x
      rfl
    · split
      · refine updateObj_relXY w' sc.target _ ?_ o
        intro x
        rfl
      · rfl
  rw [h3]
  have h2 : ∀ (w' : World),
      ((layoutObjectsW env sc lr w').objs o).relXY = (w'.objs o).relXY := by
    intro w'
    unfold layoutObjectsW
    rw [layoutClipPathW_relXY_zero env sc lr _ hoff o,
      layoutChildrenW_relXY_zero sc lr _ hoff o]
  rw [h2]
  refine updateObj_relXY w sc.target _ ?_ o
  intro x
  rfl

/-- `glrOffset` in any non-initialization context, spelled out. -/
theorem glrOffset_via (sc : StrictLayoutContext) (t : ObjState)
    (r : LayoutStrategyResult) (hty : ¬sc.type = LayoutType.initialization) :
    glrOffset sc t r
      = (((t.getRelativeCenterPoint.subtract ⟨r.centerX, r.centerY⟩).add
          ⟨r.correctionX.getD 0, r.correctionY.getD 0⟩).transform
          (invertTransform t.ownMatrix) true).add
          ⟨r.relativeCorrectionX.getD 0, r.relativeCorrectionY.getD 0⟩ := by
  unfold glrOffset glrPrevCenter
  simp [hty]

/-- The target's relative center after a non-initialization commit: the
result's center when the center changed (the center-anchored reposition
cancels the origin term), and otherwise the old position re-read against
the freshly written dimensions. -/
theorem commitLayoutW_center (env : StrategyEnv) (sc : StrictLayoutContext)
    (lr : RequiredLayoutResult) (w : World)
    (htype : ¬sc.type = LayoutType.initialization) :
    ((commitLayoutW env sc lr w).objs sc.target).getRelativeCenterPoint
      = (if lr.nextCenter = lr.prevCenter
         then ⟨(w.objs sc.target).left - lr.result.width * (w.objs sc.target).originX,
               (w.objs sc.target).top - lr.result.height * (w.objs sc.target).originY⟩
         else lr.nextCenter) := by
  have hshape := layoutObjectsW_objShape env sc lr
    (w.updateObj sc.target (fun o =>
      { o with width := lr.result.width, height := lr.result.height })) sc.target
  have hgeom := layoutObjectsW_objGeom env sc lr
    (w.updateObj sc.target (fun o =>
      { o with width := lr.result.width, height := lr.result.height })) sc.target
  have hox : ((layoutObjectsW env sc lr (w.updateObj sc.target (fun o =>
      { o with width := lr.result.width, height := lr.result.height }))).objs
      sc.target).originX = (w.objs sc.target).originX := by
    rw [objShape_originX hshape, updateObj_objs_self]
  have hoy : ((layoutObjectsW env sc lr (w.updateObj sc.target (fun o =>
      { o with width := lr.result.width, height := lr.result.height }))).objs
      sc.target).originY = (w.objs sc.target).originY := by
    rw [objShape_originY hshape, updateObj_objs_self]
  have hleft : ((layoutObjectsW env sc lr (w.updateObj sc.target (fun o =>
      { o with width := lr.result.width, height := lr.result.height }))).objs
      sc.target).left = (w.objs sc.target).left := by
    rw [objGeom_left hgeom, updateObj_objs_self]
  have htop : ((layoutObjectsW env sc lr (w.updateObj sc.target (fun o =>
      { o with width := lr.result.width, height := lr.result.height }))).objs
      sc.target).top = (w.objs sc.target).top := by
    rw [objGeom_top hgeom, updateObj_objs_self]
  have hwidth : ((layoutObjectsW env sc lr (w.updateObj sc.target (fun o =>
      { o with width := lr.result.width, height := lr.result.height }))).objs
      sc.target).width = lr.result.width := by
    rw [objGeom_width hgeom, updateObj_objs_self]
  have hheight : ((layoutObjectsW env sc lr (w.updateObj sc.target (fun o =>
      { o with width := lr.result.width, height := lr.result.height }))).objs
      sc.target).height = lr.result.height := by
    rw [objGeom_height hgeom, updateObj_objs_self]
  unfold commitLayoutW
  have h5 : ∀ (w' : World),
      ((w'.updateObj sc.target (fun o => { o with dirty := true })).objs
        sc.target).getRelativeCenterPoint
      = (w'.objs sc.target).getRelativeCenterPoint := by
    intro w'
    rw [updateObj_objs_self]
    simp [ObjState.getRelativeCenterPoint]
  rw [h5]
  have h4 : ∀ (w' : World),
      ((commitInvalidateW sc w').objs sc.target).getRelativeCenterPoint
      = (w'.objs sc.target).getRelativeCenterPoint := by
    intro w'
    unfold commitInvalidateW
    rw [if_pos htype, updateObj_objs_self]
    simp [ObjState.getRelativeCenterPoint]
  rw [h4]
  unfold commitPositionW
  rw [if_neg htype]
  by_cases hc : lr.nextCenter = lr.prevCenter
  · rw [if_pos hc, if_neg (fun h => h hc)]
    simp only [ObjState.getRelativeCenterPoint]
    rw [hleft, htop, hwidth, hheight, hox, hoy]
  · rw [if_neg hc, if_pos hc, updateObj_objs_self]
    cases hnc : lr.nextCenter with
    | mk ncx ncy =>
      simp only [ObjState.setPositionByOriginCenter, ObjState.getRelativeCenterPoint]
      congr 1 <;> ring

/-- C6 (amended): (a) in a non-initialization pass with zero corrections and
equal previous/next centers the computed offset is the zero vector; (b) with
a deterministic strategy returning the same correction-free result twice,
no bubbling, and a center-anchored (zero origin factors) container, the
second pass moves no child: positions after two passes equal positions
after one. -/
theorem layout_idempotent_amended :
    (∀ (env : StrategyEnv) (sc : StrictLayoutContext) (w : World)
        (lr : RequiredLayoutResult),
      ¬sc.type = LayoutType.initialization →
      getLayoutResult env sc w = some lr →
      lr.result.correctionX.getD 0 = 0 → lr.result.correctionY.getD 0 = 0 →
      lr.result.relativeCorrectionX.getD 0 = 0 →
      lr.result.relativeCorrectionY.getD 0 = 0 →
      lr.prevCenter = lr.nextCenter →
      lr.offset = Point.zeroP)
    ∧ (∀ (env : StrategyEnv) (fuel1 fuel2 : Nat) (mid : ManagerId)
        (ctx : LayoutContext) (w : World) (r : LayoutStrategyResult),
      (∀ (s : StrategyId) (c : StrictLayoutContext) (os : List ObjId),
        env.calcLayoutResult s c os = some r) →
      r.correctionX.getD 0 = 0 → r.correctionY.getD 0 = 0 →
      r.relativeCorrectionX.getD 0 = 0 → r.relativeCorrectionY.getD 0 = 0 →
      ¬ctx.type = LayoutType.initialization →
      (w.managers mid).firstLayoutDone = true →
      (w.objs ctx.target).group = none →
      (w.objs ctx.target).originX = 0 → (w.objs ctx.target).originY = 0 →
      ∀ o, ((performLayout env (fuel2 + 1) mid ctx
            (performLayout env (fuel1 + 1) mid ctx w).1).1.objs o).relXY
        = ((performLayout env (fuel1 + 1) mid ctx w).1.objs o).relXY) := by
  constructor
  · intro env sc w lr hty h hcx hcy hrx hry hpc
    unfold getLayoutResult at h
    cases hc : env.calcLayoutResult sc.strategy sc (w.objs sc.target).objects with
    | none => rw [hc] at h; exact absurd h (by simp)
    | some r0 =>
      rw [hc] at h
      have hlr : lr = { result := r0
                        prevCenter := glrPrevCenter sc (w.objs sc.target)
                        nextCenter := ⟨r0.centerX, r0.centerY⟩
                        offset := glrOffset sc (w.objs sc.target) r0 } :=
        (Option.some.injEq _ _ ▸ h).symm
      subst hlr
      simp only at hcx hcy hrx hry hpc ⊢
      rw [glrOffset_via sc (w.objs sc.target) r0 hty]
      have hcen : (w.objs sc.target).getRelativeCenterPoint
          = Point.mk r0.centerX r0.centerY := by
        have hgp : glrPrevCenter sc (w.objs sc.target)
            = (w.objs sc.target).getRelativeCenterPoint := by
          unfold glrPrevCenter
          rw [if_neg hty]
        rw [← hgp]
        exact hpc
      rw [hcen, hcx, hcy, hrx, hry, Point.sub_self_eq_zeroP]
      simp [Point.add, Point.transform, Point.zeroP]
  · intro env fuel1 fuel2 mid ctx w r hcalc hcx hcy hrx hry htype hfirst hng
      horx hory o
    have hgate1 : ¬(¬(w.managers mid).firstLayoutDone = true
        ∧ ctx.type ≠ LayoutType.initialization) := fun hcon => hcon.1 hfirst
    have hb1 : (onBeforeLayoutW mid (buildStrictContext (w.managers mid) ctx)
        w).1.objs = w.objs := onBeforeLayoutW_objs mid _ w
    have hcp1 : computePhase env (w.managers mid)
        (buildStrictContext (w.managers mid) ctx)
        (onBeforeLayoutW mid (buildStrictContext (w.managers mid) ctx) w).1
        = (commitLayoutW env (buildStrictContext (w.managers mid) ctx)
            (glrBundle (buildStrictContext (w.managers mid) ctx) r
              ((onBeforeLayoutW mid (buildStrictContext (w.managers mid) ctx)
                w).1.objs (buildStrictContext (w.managers mid) ctx).target))
            (onBeforeLayoutW mid (buildStrictContext (w.managers mid) ctx) w).1,
           some (glrBundle (buildStrictContext (w.managers mid) ctx) r
              ((onBeforeLayoutW mid (buildStrictContext (w.managers mid) ctx)
                w).1.objs (buildStrictContext (w.managers mid) ctx).target))) := by
      unfold computePhase
      rw [getLayoutResult_eq_of_calc env _ _ r (hcalc _ _ _)]
    have hW1 : (performLayout env (fuel1 + 1) mid ctx w).1
        = ((commitLayoutW env (buildStrictContext (w.managers mid) ctx)
            (glrBundle (buildStrictContext (w.managers mid) ctx) r
              (w.objs ctx.target))
            (onBeforeLayoutW mid (buildStrictContext (w.managers mid) ctx)
              w).1).updateManager mid
            (fun mm => { mm with firstLayoutDone := true })).updateManager mid
          (fun mm =>
            { mm with
              prevLayoutStrategy :=
                some (buildStrictContext (w.managers mid) ctx).strategy }) := by
      rw [performLayout_noBubble env fuel1 mid ctx w hgate1 hng, hcp1]
      rw [hb1, buildStrictContext_target]
    have hfirst2 : (((performLayout env (fuel1 + 1) mid ctx
        w).1).managers mid).firstLayoutDone = true := by
      rw [hW1, updateManager_managers_self, updateManager_managers_self]
    have hshapeW1 : ∀ oo, objShape (performLayout env (fuel1 + 1) mid ctx w).1 oo
        = objShape w oo := by
      intro oo
      rw [hW1]
      have h1 : objShape (((commitLayoutW env
          (buildStrictContext (w.managers mid) ctx)
          (glrBundle (buildStrictContext (w.managers mid) ctx) r
            (w.objs ctx.target))
          (onBeforeLayoutW mid (buildStrictContext (w.managers mid) ctx)
            w).1).updateManager mid
          (fun mm => { mm with firstLayoutDone := true })).updateManager mid
          (fun mm =>
            { mm with
              prevLayoutStrategy :=
                some (buildStrictContext (w.managers mid) ctx).strategy })) oo
          = objShape (commitLayoutW env (buildStrictContext (w.managers mid) ctx)
              (glrBundle (buildStrictContext (w.managers mid) ctx) r
                (w.objs ctx.target))
              (onBeforeLayoutW mid (buildStrictContext (w.managers mid) ctx)
                w).1) oo := rfl
      rw [h1, commitLayoutW_objShape]
      unfold objShape
      rw [hb1]
    have hng2 : ((performLayout env (fuel1 + 1) mid ctx w).1.objs
        ctx.target).group = none := by
      rw [objShape_group (hshapeW1 ctx.target)]
      exact hng
    have hcen2 : ((performLayout env (fuel1 + 1) mid ctx w).1.objs
        ctx.target).getRelativeCenterPoint = Point.mk r.centerX r.centerY := by
      rw [hW1]
      have h1 : ∀ (w' : World),
          (((w'.updateManager mid
            (fun mm => { mm with firstLayoutDone := true })).updateManager mid
            (fun mm =>
              { mm with
                prevLayoutStrategy :=
                  some (buildStrictContext (w.managers mid) ctx).strategy })).objs
            ctx.target) = w'.objs ctx.target := fun w' => rfl
      rw [h1]
      have hcc := commitLayoutW_center env (buildStrictContext (w.managers mid) ctx)
        (glrBundle (buildStrictContext (w.managers mid) ctx) r (w.objs ctx.target))
        (onBeforeLayoutW mid (buildStrictContext (w.managers mid) ctx) w).1
        (by rw [buildStrictContext_type]; exact htype)
      rw [buildStrictContext_target, hb1] at hcc
      rw [hcc]
      have hprev1 : (glrBundle (buildStrictContext (w.managers mid) ctx) r
          (w.objs ctx.target)).prevCenter
          = Point.mk (w.objs ctx.target).left (w.objs ctx.target).top := by
        show glrPrevCenter (buildStrictContext (w.managers mid) ctx)
          (w.objs ctx.target) = _
        unfold glrPrevCenter ObjState.getRelativeCenterPoint
        rw [if_neg (by rw [buildStrictContext_type]; exact htype), horx, hory]
        simp
      split
      · next heq =>
        have hnext : (glrBundle (buildStrictContext (w.managers mid) ctx) r
            (w.objs ctx.target)).nextCenter = Point.mk r.centerX r.centerY := rfl
        rw [horx, hory]
        have : Point.mk ((w.objs ctx.target).left - (glrBundle
            (buildStrictContext (w.managers mid) ctx) r
            (w.objs ctx.target)).result.width * 0)
            ((w.objs ctx.target).top - (glrBundle
            (buildStrictContext (w.managers mid) ctx) r
            (w.objs ctx.target)).result.height * 0)
            = Point.mk (w.objs ctx.target).left (w.objs ctx.target).top := by
          simp
        rw [this, ← hprev1, ← heq]
        exact hnext
      · next hne =>
        unfold glrBundle
        simp
    have hgate2 : ¬(¬((performLayout env (fuel1 + 1) mid ctx
        w).1.managers mid).firstLayoutDone = true
        ∧ ctx.type ≠ LayoutType.initialization) := fun hcon => hcon.1 hfirst2
    have hb2 : (onBeforeLayoutW mid
        (buildStrictContext ((performLayout env (fuel1 + 1) mid ctx
          w).1.managers mid) ctx)
        (performLayout env (fuel1 + 1) mid ctx w).1).1.objs
        = (performLayout env (fuel1 + 1) mid ctx w).1.objs :=
      onBeforeLayoutW_objs mid _ _
    have hoff2 : (glrBundle
        (buildStrictContext ((performLayout env (fuel1 + 1) mid ctx
          w).1.managers mid) ctx) r
        ((performLayout env (fuel1 + 1) mid ctx w).1.objs ctx.target)).offset
        = Point.zeroP := by
      show glrOffset _ _ r = Point.zeroP
      rw [glrOffset_via _ _ r (by rw [buildStrictContext_type]; exact htype)]
      rw [hcen2, hcx, hcy, hrx, hry, Point.sub_self_eq_zeroP]
      simp [Point.add, Point.transform, Point.zeroP]
    have hcp2 : computePhase env ((performLayout env (fuel1 + 1) mid ctx
        w).1.managers mid)
        (buildStrictContext ((performLayout env (fuel1 + 1) mid ctx
          w).1.managers mid) ctx)
        (onBeforeLayoutW mid
          (buildStrictContext ((performLayout env (fuel1 + 1) mid ctx
            w).1.managers mid) ctx)
          (performLayout env (fuel1 + 1) mid ctx w).1).1
        = (commitLayoutW env
            (buildStrictContext ((performLayout env (fuel1 + 1) mid ctx
              w).1.managers mid) ctx)
            (glrBundle (buildStrictContext ((performLayout env (fuel1 + 1) mid
              ctx w).1.managers mid) ctx) r
              ((onBeforeLayoutW mid
                (buildStrictContext ((performLayout env (fuel1 + 1) mid ctx
                  w).1.managers mid) ctx)
                (performLayout env (fuel1 + 1) mid ctx w).1).1.objs
                (buildStrictContext ((performLayout env (fuel1 + 1) mid ctx
                  w).1.managers mid) ctx).target))
            (onBeforeLayoutW mid
              (buildStrictContext ((performLayout env (fuel1 + 1) mid ctx
                w).1.managers mid) ctx)
              (performLayout env (fuel1 + 1) mid ctx w).1).1,
           some (glrBundle (buildStrictContext ((performLayout env
              (fuel1 + 1) mid ctx w).1.managers mid) ctx) r
              ((onBeforeLayoutW mid
                (buildStrictContext ((performLayout env (fuel1 + 1) mid ctx
                  w).1.managers mid) ctx)
                (performLayout env (fuel1 + 1) mid ctx w).1).1.objs
                (buildStrictContext ((performLayout env (fuel1 + 1) mid ctx
                  w).1.managers mid) ctx).target))) := by
      unfold computePhase
      rw [getLayoutResult_eq_of_calc env _ _ r (hcalc _ _ _)]
    rw [performLayout_noBubble env fuel2 mid ctx
      (performLayout env (fuel1 + 1) mid ctx w).1 hgate2 hng2, hcp2]
    rw [updateManager_objs, updateManager_objs]
    rw [commitLayoutW_relXY_zero env _ _ _
      (by rw [hb2, buildStrictContext_target]; exact hoff2) o]
    rw [hb2]

/-- The sole direct child of the target (clip-path-free container,
non-initialization pass) is shifted by exactly the pass's offset. -/
theorem commitLayoutW_child_relXY (env : StrategyEnv) (sc : StrictLayoutContext)
    (lr : RequiredLayoutResult) (w : World) (oid : ObjId)
    (hty : ¬sc.type = LayoutType.initialization)
    (hne : ¬oid = sc.target)
    (hobjects : (w.objs sc.target).objects = [oid])
    (hgrp : (w.objs oid).group = some sc.target)
    (hclip : (w.objs sc.target).clipPath = none) :
    ((commitLayoutW env sc lr w).objs oid).relXY
      = (w.objs oid).relXY.add lr.offset := by
  unfold commitLayoutW
  have h5 : ∀ (w' : World),
      (w'.updateObj sc.target (fun o => { o with dirty := true })).objs oid
        = w'.objs oid := fun w' => updateObj_objs_ne w' sc.target _ oid hne
  rw [h5]
  have h4 : ∀ (w' : World), (commitInvalidateW sc w').objs oid = w'.objs oid := by
    intro w'
    unfold commitInvalidateW
    split
    case isTrue => first
      | rfl
      | exact updateObj_objs_ne w' sc.target _ oid hne
    case isFalse => first
      | rfl
      | exact updateObj_objs_ne w' sc.target _ oid hne
  rw [h4]
  have h3 : ∀ (w' : World), (commitPositionW sc lr w').objs oid = w'.objs oid := by
    intro w'
    unfold commitPositionW
    split
    · exact updateObj_objs_ne w' sc.target _ oid hne
    · split
      case isTrue => first
        | rfl
        | exact updateObj_objs_ne w' sc.target _ oid hne
      case isFalse => first
        | rfl
        | exact updateObj_objs_ne w' sc.target _ oid hne
  rw [h3]
  unfold layoutObjectsW
  have hchild : layoutChildrenW sc lr
      (w.updateObj sc.target (fun o =>
        { o with width := lr.result.width, height := lr.result.height }))
      = layoutObjectW lr oid
        (w.updateObj sc.target (fun o =>
          { o with width := lr.result.width, height := lr.result.height })) := by
    unfold layoutChildrenW
    rw [if_pos (Or.inl hty)]
    have hobjs1 : ((w.updateObj sc.target (fun o =>
        { o with width := lr.result.width, height := lr.result.height })).objs
        sc.target).objects = [oid] := by
      rw [updateObj_objs_self]
      show (w.objs sc.target).objects = [oid]
      exact hobjects
    rw [hobjs1, List.foldl_cons, List.foldl_nil]
    rw [if_pos]
    rw [updateObj_objs_ne w sc.target _ oid hne]
    exact hgrp
  rw [hchild]
  have hclip2 : layoutClipPathW env sc lr
      (layoutObjectW lr oid (w.updateObj sc.target (fun o =>
        { o with width := lr.result.width, height := lr.result.height })))
      = layoutObjectW lr oid (w.updateObj sc.target (fun o =>
        { o with width := lr.result.width, height := lr.result.height })) := by
    unfold layoutClipPathW
    have hcp : ((layoutObjectW lr oid (w.updateObj sc.target (fun o =>
        { o with width := lr.result.width, height := lr.result.height }))).objs
        sc.target).clipPath = none := by
      rw [objShape_clipPath (layoutObjectW_objShape lr oid _ sc.target),
        updateObj_objs_self]
      exact hclip
    rw [hcp]
  rw [hclip2]
  unfold layoutObjectW
  rw [updateObj_objs_self]
  show ((w.updateObj sc.target (fun o =>
    { o with width := lr.result.width, height := lr.result.height })).objs
    oid).relXY.add lr.offset = (w.objs oid).relXY.add lr.offset
  rw [updateObj_objs_ne w sc.target _ oid hne]

/-! ## C6: idempotence and the round trip -/

/-- The deterministic strategy result used for the C6 counterexample. -/
def rC : LayoutStrategyResult := { centerX := 5, centerY := 0, width := 20, height := 7 }

/-- An environment whose strategies always return `rC`. -/
def envC : StrategyEnv :=
  { calcLayoutResult := fun _ _ _ => some rC
    shouldLayoutClipPath := fun _ _ => false }

/-- A container `0` (10×7, left-anchored origin factor −1/2, center (5,0))
owning child `1` at (3,4); its manager is past initialization. -/
def wC : World :=
  { objs := fun i =>
      if i = 0 then { width := 10, height := 7, originX := -(1/2), objects := [1] }
      else if i = 1 then { group := some 0, relXY := ⟨3, 4⟩ }
      else {}
    managers := fun _ => { strategy := 0, firstLayoutDone := true }
    paths := fun _ => [] }

/-- A plain modification context for container `0`. -/
def ctxC : LayoutContext := { type := LayoutType.object_modified, target := 0 }

/-- C6 counterexample: with a left-anchored container (origin factor −1/2)
whose dimensions change while its center does not, the commit skips the
reposition, the re-read center drifts, and the second identical pass moves
the child from (3,4) to (8,4): applying the same deterministic result twice
does not equal applying it once. -/
theorem layout_roundtrip_claim_false :
    ¬(((performLayout envC 1 0 ctxC (performLayout envC 1 0 ctxC wC).1).1.objs 1).relXY
      = ((performLayout envC 1 0 ctxC wC).1.objs 1).relXY) := by
  have hgate1 : ¬(¬(wC.managers 0).firstLayoutDone = true
      ∧ ctxC.type ≠ LayoutType.initialization) := by decide
  have hng1 : (wC.objs ctxC.target).group = none := by decide
  have htyC : ¬(buildStrictContext (wC.managers 0) ctxC).type
      = LayoutType.initialization := by decide
  have hb1 : (onBeforeLayoutW 0 (buildStrictContext (wC.managers 0) ctxC)
      wC).1.objs = wC.objs := onBeforeLayoutW_objs 0 _ wC
  have hcp1 : computePhase envC (wC.managers 0)
      (buildStrictContext (wC.managers 0) ctxC)
      (onBeforeLayoutW 0 (buildStrictContext (wC.managers 0) ctxC) wC).1
      = (commitLayoutW envC (buildStrictContext (wC.managers 0) ctxC)
          (glrBundle (buildStrictContext (wC.managers 0) ctxC) rC
            ((onBeforeLayoutW 0 (buildStrictContext (wC.managers 0) ctxC)
              wC).1.objs (buildStrictContext (wC.managers 0) ctxC).target))
          (onBeforeLayoutW 0 (buildStrictContext (wC.managers 0) ctxC) wC).1,
         some (glrBundle (buildStrictContext (wC.managers 0) ctxC) rC
            ((onBeforeLayoutW 0 (buildStrictContext (wC.managers 0) ctxC)
              wC).1.objs (buildStrictContext (wC.managers 0) ctxC).target))) := by
    unfold computePhase
    rw [getLayoutResult_eq_of_calc envC _ _ rC rfl]
  have hP1 := performLayout_noBubble envC 0 0 ctxC wC hgate1 hng1
  rw [Nat.zero_add] at hP1
  have hW1 : (performLayout envC 1 0 ctxC wC).1
      = ((commitLayoutW envC (buildStrictContext (wC.managers 0) ctxC)
          (glrBundle (buildStrictContext (wC.managers 0) ctxC) rC (wC.objs 0))
          (onBeforeLayoutW 0 (buildStrictContext (wC.managers 0) ctxC)
            wC).1).updateManager 0
          (fun mm => { mm with firstLayoutDone := true })).updateManager 0
        (fun mm =>
          { mm with
            prevLayoutStrategy :=
              some (buildStrictContext (wC.managers 0) ctxC).strategy }) := by
    rw [hP1, hcp1, hb1, buildStrictContext_target]
    rfl
  have hoffB1 : (glrBundle (buildStrictContext (wC.managers 0) ctxC) rC
      (wC.objs 0)).offset = Point.zeroP := by
    show glrOffset (buildStrictContext (wC.managers 0) ctxC) (wC.objs 0) rC
      = Point.zeroP
    rw [glrOffset_via _ _ _ htyC]
    norm_num [wC, rC, ObjState.getRelativeCenterPoint, Point.subtract,
      Point.add, Point.transform, Point.zeroP, invertTransform, iMatrix]
  have h1once : ((performLayout envC 1 0 ctxC wC).1.objs 1).relXY
      = Point.mk 3 4 := by
    rw [hW1, updateManager_objs, updateManager_objs,
      commitLayoutW_relXY_zero envC _ _ _ hoffB1 1, hb1]
    norm_num [wC]
  have hcen1 : ((performLayout envC 1 0 ctxC wC).1.objs 0).getRelativeCenterPoint
      = Point.mk 10 0 := by
    rw [hW1, updateManager_objs, updateManager_objs]
    show ((commitLayoutW envC (buildStrictContext (wC.managers 0) ctxC)
      (glrBundle (buildStrictContext (wC.managers 0) ctxC) rC (wC.objs 0))
      (onBeforeLayoutW 0 (buildStrictContext (wC.managers 0) ctxC)
        wC).1).objs
      (buildStrictContext (wC.managers 0) ctxC).target).getRelativeCenterPoint = _
    rw [commitLayoutW_center envC _ _ _ htyC]
    have hcond : (glrBundle (buildStrictContext (wC.managers 0) ctxC) rC
        (wC.objs 0)).nextCenter
        = (glrBundle (buildStrictContext (wC.managers 0) ctxC) rC
          (wC.objs 0)).prevCenter := by
      show Point.mk rC.centerX rC.centerY
        = glrPrevCenter (buildStrictContext (wC.managers 0) ctxC) (wC.objs 0)
      unfold glrPrevCenter
      rw [if_neg htyC]
      norm_num [wC, rC, ObjState.getRelativeCenterPoint]
    rw [if_pos hcond, hb1]
    norm_num [wC, rC, ctxC, glrBundle, buildStrictContext]
  have hshape2 : ∀ oo, objShape (performLayout envC 1 0 ctxC wC).1 oo
      = objShape wC oo := by
    intro oo
    rw [hW1]
    have h1 : objShape (((commitLayoutW envC
        (buildStrictContext (wC.managers 0) ctxC)
        (glrBundle (buildStrictContext (wC.managers 0) ctxC) rC (wC.objs 0))
        (onBeforeLayoutW 0 (buildStrictContext (wC.managers 0) ctxC)
          wC).1).updateManager 0
        (fun mm => { mm with firstLayoutDone := true })).updateManager 0
        (fun mm =>
          { mm with
            prevLayoutStrategy :=
              some (buildStrictContext (wC.managers 0) ctxC).strategy })) oo
        = objShape (commitLayoutW envC (buildStrictContext (wC.managers 0) ctxC)
            (glrBundle (buildStrictContext (wC.managers 0) ctxC) rC (wC.objs 0))
            (onBeforeLayoutW 0 (buildStrictContext (wC.managers 0) ctxC)
              wC).1) oo := rfl
    rw [h1, commitLayoutW_objShape]
    unfold objShape
    rw [hb1]
  have hfirst2 : ((performLayout envC 1 0 ctxC wC).1.managers 0).firstLayoutDone
      = true := by
    rw [hW1, updateManager_managers_self, updateManager_managers_self]
  have hgate2 : ¬(¬((performLayout envC 1 0 ctxC
      wC).1.managers 0).firstLayoutDone = true
      ∧ ctxC.type ≠ LayoutType.initialization) := fun hc => hc.1 hfirst2
  have hng2 : ((performLayout envC 1 0 ctxC wC).1.objs ctxC.target).group
      = none := by
    rw [objShape_group (hshape2 ctxC.target)]
    exact hng1
  have hb2 : (onBeforeLayoutW 0
      (buildStrictContext ((performLayout envC 1 0 ctxC wC).1.managers 0) ctxC)
      (performLayout envC 1 0 ctxC wC).1).1.objs
      = (performLayout envC 1 0 ctxC wC).1.objs := onBeforeLayoutW_objs 0 _ _
  have hty2 : ¬(buildStrictContext ((performLayout envC 1 0 ctxC
      wC).1.managers 0) ctxC).type = LayoutType.initialization := by
    rw [buildStrictContext_type]
    decide
  have hcp2 : computePhase envC ((performLayout envC 1 0 ctxC wC).1.managers 0)
      (buildStrictContext ((performLayout envC 1 0 ctxC wC).1.managers 0) ctxC)
      (onBeforeLayoutW 0
        (buildStrictContext ((performLayout envC 1 0 ctxC wC).1.managers 0) ctxC)
        (performLayout envC 1 0 ctxC wC).1).1
      = (commitLayoutW envC
          (buildStrictContext ((performLayout envC 1 0 ctxC wC).1.managers 0) ctxC)
          (glrBundle (buildStrictContext ((performLayout envC 1 0 ctxC
            wC).1.managers 0) ctxC) rC
            ((onBeforeLayoutW 0
              (buildStrictContext ((performLayout envC 1 0 ctxC
                wC).1.managers 0) ctxC)
              (performLayout envC 1 0 ctxC wC).1).1.objs
              (buildStrictContext ((performLayout envC 1 0 ctxC
                wC).1.managers 0) ctxC).target))
          (onBeforeLayoutW 0
            (buildStrictContext ((performLayout envC 1 0 ctxC
              wC).1.managers 0) ctxC)
            (performLayout envC 1 0 ctxC wC).1).1,
         some (glrBundle (buildStrictContext ((performLayout envC 1 0 ctxC
            wC).1.managers 0) ctxC) rC
            ((onBeforeLayoutW 0
              (buildStrictContext ((performLayout envC 1 0 ctxC
                wC).1.managers 0) ctxC)
              (performLayout envC 1 0 ctxC wC).1).1.objs
              (buildStrictContext ((performLayout envC 1 0 ctxC
                wC).1.managers 0) ctxC).target))) := by
    unfold computePhase
    rw [getLayoutResult_eq_of_calc envC _ _ rC rfl]
  have hP2 := performLayout_noBubble envC 0 0 ctxC
    (performLayout envC 1 0 ctxC wC).1 hgate2 hng2
  rw [Nat.zero_add] at hP2
  have hW2 : (performLayout envC 1 0 ctxC (performLayout envC 1 0 ctxC wC).1).1
      = ((commitLayoutW envC
          (buildStrictContext ((performLayout envC 1 0 ctxC wC).1.managers 0) ctxC)
          (glrBundle (buildStrictContext ((performLayout envC 1 0 ctxC
            wC).1.managers 0) ctxC) rC
            ((performLayout envC 1 0 ctxC wC).1.objs 0))
          (onBeforeLayoutW 0
            (buildStrictContext ((performLayout envC 1 0 ctxC
              wC).1.managers 0) ctxC)
            (performLayout envC 1 0 ctxC wC).1).1).updateManager 0
          (fun mm => { mm with firstLayoutDone := true })).updateManager 0
        (fun mm =>
          { mm with
            prevLayoutStrategy :=
              some (buildStrictContext ((performLayout envC 1 0 ctxC
                wC).1.managers 0) ctxC).strategy }) := by
    rw [hP2, hcp2, hb2, buildStrictContext_target]
    rfl
  have hmat1 : ((performLayout envC 1 0 ctxC wC).1.objs 0).ownMatrix
      = iMatrix := by
    rw [objShape_ownMatrix (hshape2 0)]
    rfl
  have hoff2 : (glrBundle (buildStrictContext ((performLayout envC 1 0 ctxC
      wC).1.managers 0) ctxC) rC
      ((performLayout envC 1 0 ctxC wC).1.objs 0)).offset = Point.mk 5 0 := by
    show glrOffset (buildStrictContext ((performLayout envC 1 0 ctxC
      wC).1.managers 0) ctxC) ((performLayout envC 1 0 ctxC wC).1.objs 0) rC
      = Point.mk 5 0
    rw [glrOffset_via _ _ _ hty2, hcen1, hmat1]
    norm_num [rC, Point.subtract, Point.add, Point.transform, Point.zeroP,
      invertTransform, iMatrix]
  have hobjs2 : ((onBeforeLayoutW 0
      (buildStrictContext ((performLayout envC 1 0 ctxC wC).1.managers 0) ctxC)
      (performLayout envC 1 0 ctxC wC).1).1.objs
      (buildStrictContext ((performLayout envC 1 0 ctxC
        wC).1.managers 0) ctxC).target).objects = [1] := by
    rw [hb2]
    show ((performLayout envC 1 0 ctxC wC).1.objs 0).objects = [1]
    rw [objShape_objects (hshape2 0)]
    rfl
  have hgrp2 : ((onBeforeLayoutW 0
      (buildStrictContext ((performLayout envC 1 0 ctxC wC).1.managers 0) ctxC)
      (performLayout envC 1 0 ctxC wC).1).1.objs 1).group
      = some (buildStrictContext ((performLayout envC 1 0 ctxC
        wC).1.managers 0) ctxC).target := by
    rw [hb2]
    show ((performLayout envC 1 0 ctxC wC).1.objs 1).group = some 0
    rw [objShape_group (hshape2 1)]
    rfl
  have hclip2 : ((onBeforeLayoutW 0
      (buildStrictContext ((performLayout envC 1 0 ctxC wC).1.managers 0) ctxC)
      (performLayout envC 1 0 ctxC wC).1).1.objs
      (buildStrictContext ((performLayout envC 1 0 ctxC
        wC).1.managers 0) ctxC).target).clipPath = none := by
    rw [hb2]
    show ((performLayout envC 1 0 ctxC wC).1.objs 0).clipPath = none
    rw [objShape_clipPath (hshape2 0)]
    rfl
  have htwice : ((performLayout envC 1 0 ctxC
      (performLayout envC 1 0 ctxC wC).1).1.objs 1).relXY = Point.mk 8 4 := by
    rw [hW2, updateManager_objs, updateManager_objs]
    rw [commitLayoutW_child_relXY envC _ _ _ 1 hty2 (by decide) hobjs2 hgrp2 hclip2]
    rw [hb2, h1once, hoff2]
    norm_num [Point.add]
  rw [htwice, h1once]
  intro h
  have hx := congrArg Point.x h
  norm_num at hx

/-- A plain strict context over `wC`'s manager, used by the C6 witness. -/
def scW : StrictLayoutContext :=
  { strategy := 0, prevStrategy := none, strategyChange := false
    type := LayoutType.object_modified, target := 0, targets := []
    objectsRelativeToGroup := false, path := none }

/-- The bundle `getLayoutResult envC scW wC` produces (equal centers, zero
offset). -/
def lrW : RequiredLayoutResult :=
  { result := rC, prevCenter := ⟨5, 0⟩, nextCenter := ⟨5, 0⟩, offset := ⟨0, 0⟩ }

/-! ## Concrete instances shared by the witnesses -/

/-- A strategy environment whose only strategy always returns a fixed
result and never lays out the clip path. -/
def exEnv : StrategyEnv :=
  { calcLayoutResult := fun _ _ _ =>
      some { centerX := 10, centerY := 0, width := 20, height := 20 }
    shouldLayoutClipPath := fun _ _ => false }

/-- A strategy environment whose strategies always decline. -/
def exEnvNone : StrategyEnv :=
  { calcLayoutResult := fun _ _ _ => none
    shouldLayoutClipPath := fun _ _ => false }

/-- A small world: container `0` (5×5, centered origin) owning child `1`. -/
def exWorld : World :=
  { objs := fun i =>
      if i = 0 then { objects := [1], width := 5, height := 5 }
      else if i = 1 then { group := some 0, relXY := ⟨3, 4⟩ }
      else {}
    managers := fun _ => { strategy := 0 }
    paths := fun _ => [] }

/-- A plain strict context for container `0`, non-initialization. -/
def exSC : StrictLayoutContext :=
  { strategy := 0, prevStrategy := none, strategyChange := false
    type := LayoutType.object_modified, target := 0, targets := []
    objectsRelativeToGroup := false, path := none }

/-- The bundle `getLayoutResult exEnv exSC exWorld` produces. -/
def exLR : RequiredLayoutResult :=
  { result := { centerX := 10, centerY := 0, width := 20, height := 20 }
    prevCenter := ⟨0, 0⟩
    nextCenter := ⟨10, 0⟩
    offset := ⟨-10, 0⟩ }

/-! ## C1: the child-offset formula -/

/-- The offset formula exactly as the spec sentence states it: prevCenter is
the container's current relative center (the zero point on
`initialization`), `M` is the inverse of the container's own transform
matrix (identity on `initialization`), corrections default to 0, and the
offset is forced to zero on `initialization` with children already relative
to the group. -/
def specOffset (type : LayoutType) (objectsRelativeToGroup : Bool)
    (relCenter : Point) (ownMatrix : TMat2D) (r : LayoutStrategyResult) : Point :=
  if type = LayoutType.initialization ∧ objectsRelativeToGroup then Point.zeroP
  else
    ((((if type = LayoutType.initialization then Point.zeroP
        else relCenter).subtract ⟨r.centerX, r.centerY⟩).add
        ⟨r.correctionX.getD 0, r.correctionY.getD 0⟩).transform
      (if type = LayoutType.initialization then iMatrix
       else invertTransform ownMatrix) true).add
      ⟨r.relativeCorrectionX.getD 0, r.relativeCorrectionY.getD 0⟩

/-- C1: whenever the strategy returns a `LayoutResult`, the child offset
computed by `getLayoutResult` equals
`transform(prevCenter - nextCenter + correction, M) + relativeCorrection`,
where `prevCenter` is the container's current relative center (zero point on
`initialization`), `M` is the inverse of the container's own current
transform matrix (identity on `initialization`), corrections default to 0
when absent, and the offset is forced to the zero point on `initialization`
when the context flags children as already relative to the group. -/
theorem getLayoutResult_offset_spec (env : StrategyEnv) (sc : StrictLayoutContext)
    (w : World) (lr : RequiredLayoutResult)
    (h : getLayoutResult env sc w = some lr) :
    lr.offset = specOffset sc.type sc.objectsRelativeToGroup
      (w.objs sc.target).getRelativeCenterPoint (w.objs sc.target).ownMatrix
      lr.result
    ∧ lr.prevCenter = (if sc.type = LayoutType.initialization then Point.zeroP
        else (w.objs sc.target).getRelativeCenterPoint)
    ∧ lr.nextCenter = Point.mk lr.result.centerX lr.result.centerY := by
  unfold getLayoutResult at h
  cases hc : env.calcLayoutResult sc.strategy sc (w.objs sc.target).objects with
  | none => rw [hc] at h; exact absurd h (by simp)
  | some result =>
    rw [hc] at h
    have hlr : lr = { result := result
                      prevCenter := glrPrevCenter sc (w.objs sc.target)
                      nextCenter := ⟨result.centerX, result.centerY⟩
                      offset := glrOffset sc (w.objs sc.target) result } :=
      (Option.some.injEq _ _ ▸ h).symm
    subst hlr
    refine ⟨?_, rfl, rfl⟩
    unfold glrOffset glrPrevCenter specOffset
    rfl

/-- Witness for C1 at a concrete input. -/
theorem getLayoutResult_offset_spec_witness :
    getLayoutResult exEnv exSC exWorld = some exLR
    ∧ exLR.offset = specOffset exSC.type exSC.objectsRelativeToGroup
        (exWorld.objs exSC.target).getRelativeCenterPoint
        (exWorld.objs exSC.target).ownMatrix exLR.result := by
  have h : getLayoutResult exEnv exSC exWorld = some exLR := by
    simp [getLayoutResult, exEnv, exSC, exWorld, exLR, glrPrevCenter, glrOffset,
      ObjState.getRelativeCenterPoint, Point.transform, Point.add, Point.subtract,
      Point.zeroP, invertTransform, iMatrix]
  exact ⟨h, (getLayoutResult_offset_spec exEnv exSC exWorld exLR h).1⟩

/-! ## C2: the pre-initialization gate -/

/-- C2: when no layout has ever completed and the incoming type is not
`initialization`, `performLayout` returns with no observable side effect:
the world (objects, managers, subscriptions, listeners, paths) is returned
unchanged and no hook or event fires. -/
theorem performLayout_gate_drops (env : StrategyEnv) (fuel : Nat)
    (mid : ManagerId) (context : LayoutContext) (w : World)
    (h1 : (w.managers mid).firstLayoutDone = false)
    (h2 : context.type ≠ LayoutType.initialization) :
    performLayout env fuel mid context w = (w, []) := by
  cases fuel with
  | zero => rfl
  | succ n =>
    unfold performLayout
    rw [if_pos]
    exact ⟨by rw [h1]; exact Bool.false_ne_true, h2⟩

/-- Witness for C2 at a concrete input. -/
theorem performLayout_gate_drops_witness :
    (exWorld.managers 0).firstLayoutDone = false
    ∧ performLayout exEnv 3 0
        { type := LayoutType.added, target := 0, targets := [1] } exWorld
      = (exWorld, []) :=
  ⟨rfl, performLayout_gate_drops exEnv 3 0 _ exWorld rfl (by decide)⟩

/-- An initialization context for container `0` with child `1` as target. -/
def exCtxInit : LayoutContext :=
  { type := LayoutType.initialization, target := 0, targets := [1] }

/-- A plain non-initialization context for container `0`. -/
def exCtxMod : LayoutContext := { type := LayoutType.object_modified, target := 0 }

/-! ## C3: the first-layout fallback -/

/-- C3: when the strategy declines (`calcLayoutResult` returns `undefined`)
on the very first layout of a parentless container, `performLayout` passes
to the after-hook (and event) a synthesized result whose previous and next
centers are the container's current relative center, whose offset is the
zero point and whose dimensions are copied from the container — and commits
nothing: the object table is completely unchanged. -/
theorem performLayout_first_fallback (env : StrategyEnv) (fuel : Nat)
    (mid : ManagerId) (context : LayoutContext) (w : World)
    (hfirst : (w.managers mid).firstLayoutDone = false)
    (htype : context.type = LayoutType.initialization)
    (hng : (w.objs context.target).group = none)
    (hdecline : env.calcLayoutResult
      (buildStrictContext (w.managers mid) context).strategy
      (buildStrictContext (w.managers mid) context)
      (w.objs context.target).objects = none) :
    (performLayout env (fuel + 1) mid context w).1.objs = w.objs
    ∧ (performLayout env (fuel + 1) mid context w).2
      = [LEffect.beforeHook (buildStrictContext (w.managers mid) context),
         LEffect.beforeEvent (buildStrictContext (w.managers mid) context),
         LEffect.afterHook (buildStrictContext (w.managers mid) context)
           (some (fallbackResult (w.objs context.target))),
         LEffect.afterEvent (buildStrictContext (w.managers mid) context)
           (some (fallbackResult (w.objs context.target)))]
    ∧ fallbackResult (w.objs context.target)
      = { result := { centerX := (w.objs context.target).getRelativeCenterPoint.x
                      centerY := (w.objs context.target).getRelativeCenterPoint.y
                      width := (w.objs context.target).width
                      height := (w.objs context.target).height }
          prevCenter := (w.objs context.target).getRelativeCenterPoint
          nextCenter := (w.objs context.target).getRelativeCenterPoint
          offset := Point.zeroP } := by
  have hgate : ¬(¬(w.managers mid).firstLayoutDone = true
      ∧ context.type ≠ LayoutType.initialization) := fun hc => hc.2 htype
  have hglr : getLayoutResult env (buildStrictContext (w.managers mid) context)
      (onBeforeLayoutW mid (buildStrictContext (w.managers mid) context) w).1
      = none := by
    unfold getLayoutResult
    rw [onBeforeLayoutW_objs, buildStrictContext_target, hdecline]
  have hcompute : computePhase env (w.managers mid)
      (buildStrictContext (w.managers mid) context)
      (onBeforeLayoutW mid (buildStrictContext (w.managers mid) context) w).1
      = ((onBeforeLayoutW mid (buildStrictContext (w.managers mid) context) w).1,
         some (fallbackResult (w.objs context.target))) := by
    unfold computePhase
    rw [hglr, hfirst]
    rw [onBeforeLayoutW_objs, buildStrictContext_target]
    simp
  rw [performLayout_noBubble env fuel mid context w hgate hng]
  rw [hcompute, onBeforeLayoutW_effs]
  refine ⟨?_, rfl, rfl⟩
  rw [updateManager_objs, updateManager_objs, onBeforeLayoutW_objs]

/-- Witness for C3 at a concrete input. -/
theorem performLayout_first_fallback_witness :
    (performLayout exEnvNone 2 0 exCtxInit exWorld).1.objs = exWorld.objs
    ∧ (performLayout exEnvNone 2 0 exCtxInit exWorld).2
      = [LEffect.beforeHook (buildStrictContext (exWorld.managers 0) exCtxInit),
         LEffect.beforeEvent (buildStrictContext (exWorld.managers 0) exCtxInit),
         LEffect.afterHook (buildStrictContext (exWorld.managers 0) exCtxInit)
           (some (fallbackResult (exWorld.objs 0))),
         LEffect.afterEvent (buildStrictContext (exWorld.managers 0) exCtxInit)
           (some (fallbackResult (exWorld.objs 0)))] := by
  have h := performLayout_first_fallback exEnvNone 1 0 exCtxInit exWorld rfl rfl
    (by simp [exWorld, exCtxInit]) rfl
  exact ⟨h.1, h.2.1⟩

/-! ## C7: the `strategyChange` flag -/

/-- C7: for a context that does not already carry a `strategyChange` key,
the strict context's `strategyChange` is true iff a previous layout strategy
was recorded and differs by identity from the current strategy; in
particular, across two consecutive passes whose second runs with a swapped
strategy instance, the flag is false on the first strict context and true
on the second. -/
theorem strictContext_strategyChange :
    (∀ (m : LayoutManagerState) (ctx : LayoutContext),
      ctx.strategyChangeF = none →
      ((buildStrictContext m ctx).strategyChange = true
        ↔ ∃ p, m.prevLayoutStrategy = some p ∧ p ≠ m.strategy))
    ∧ (∀ (env : StrategyEnv) (fuel : Nat) (mid : ManagerId) (w : World)
        (ctx1 ctx2 : LayoutContext) (s2 : StrategyId),
        ctx1.strategyF = none → ctx1.strategyChangeF = none →
        ctx2.strategyChangeF = none →
        (w.managers mid).prevLayoutStrategy = none →
        ctx1.type = LayoutType.initialization →
        s2 ≠ (w.managers mid).strategy →
        (buildStrictContext (w.managers mid) ctx1).strategyChange = false
        ∧ (buildStrictContext
            (((performLayout env (fuel + 1) mid ctx1 w).1.updateManager mid
              (fun mm => { mm with strategy := s2 })).managers mid)
            ctx2).strategyChange = true) := by
  constructor
  · intro m ctx h
    unfold buildStrictContext
    rw [h]
    simp only [Option.getD_none]
    cases hp : m.prevLayoutStrategy with
    | none => simp
    | some p =>
      show decide (m.strategy ≠ p) = true ↔ _
      rw [decide_eq_true_eq]
      constructor
      · intro hd
        exact ⟨p, rfl, fun he => hd he.symm⟩
      · rintro ⟨q, hq, hne⟩
        injection hq with hpq
        subst hpq
        exact fun he => hne he.symm
  · intro env fuel mid w ctx1 ctx2 s2 hsf1 hsc1 hsc2 hprev htype hs2
    have hgate : ¬(¬(w.managers mid).firstLayoutDone = true
        ∧ ctx1.type ≠ LayoutType.initialization) := fun hc => hc.2 htype
    constructor
    · unfold buildStrictContext
      rw [hsc1, hprev]
      rfl
    · have hrec := performLayout_records_prev env fuel mid ctx1 w hgate
      have hstrat : (buildStrictContext (w.managers mid) ctx1).strategy
          = (w.managers mid).strategy := by
        unfold buildStrictContext
        rw [hsf1]
        rfl
      rw [hstrat] at hrec
      unfold buildStrictContext
      rw [hsc2]
      simp [World.updateManager, hrec, hs2]

/-- Witness for C7 at concrete inputs. -/
theorem strictContext_strategyChange_witness :
    ((buildStrictContext (exWorld.managers 0) exCtxMod).strategyChange = true
      ↔ ∃ p, (exWorld.managers 0).prevLayoutStrategy = some p
          ∧ p ≠ (exWorld.managers 0).strategy)
    ∧ ((buildStrictContext (exWorld.managers 0) exCtxInit).strategyChange = false
      ∧ (buildStrictContext
          (((performLayout exEnv 2 0 exCtxInit exWorld).1.updateManager 0
            (fun mm => { mm with strategy := 1 })).managers 0)
          exCtxMod).strategyChange = true) :=
  ⟨strictContext_strategyChange.1 (exWorld.managers 0) exCtxMod rfl,
   strictContext_strategyChange.2 exEnv 1 0 exWorld exCtxInit exCtxMod 1
     rfl rfl rfl rfl rfl (by decide)⟩

/-! ## C10: overriding strict fields on bubbled contexts -/

/-- C10: the strict context is built by spreading the incoming context over
the manager's `strategy` / `prevStrategy` / `strategyChange`, so a context
already carrying those keys (every bubbled context does — it is the child's
strict context with only `target` replaced and `path` filled) overrides the
manager's values; consequently a manager processing such a context uses the
carried strategy and records it into `_prevLayoutStrategy`, not its own
`strategy` field. -/
theorem bubbled_context_overrides :
    (∀ (m : LayoutManagerState) (ctx : LayoutContext) (s : StrategyId)
        (ps : Option StrategyId) (b : Bool),
      ctx.strategyF = some s → ctx.prevStrategyF = some ps →
      ctx.strategyChangeF = some b →
      buildStrictContext m ctx
        = { strategy := s, prevStrategy := ps, strategyChange := b,
            type := ctx.type, target := ctx.target, targets := ctx.targets,
            objectsRelativeToGroup := ctx.objectsRelativeToGroup,
            path := ctx.path })
    ∧ (∀ (sc : StrictLayoutContext) (gid : ObjId) (r : PathRef),
        bubbledContext sc gid r
          = { type := sc.type, target := gid, targets := sc.targets,
              objectsRelativeToGroup := sc.objectsRelativeToGroup,
              path := some r, strategyF := some sc.strategy,
              prevStrategyF := some sc.prevStrategy,
              strategyChangeF := some sc.strategyChange })
    ∧ (∀ (env : StrategyEnv) (fuel : Nat) (mid : ManagerId)
        (ctx : LayoutContext) (w : World) (s : StrategyId),
        ctx.strategyF = some s →
        ((w.managers mid).firstLayoutDone = true
          ∨ ctx.type = LayoutType.initialization) →
        ((performLayout env (fuel + 1) mid ctx w).1.managers mid).prevLayoutStrategy
          = some s) := by
  refine ⟨?_, ?_, ?_⟩
  · intro m ctx s ps b h1 h2 h3
    unfold buildStrictContext
    rw [h1, h2, h3]
    rfl
  · intro sc gid r
    rfl
  · intro env fuel mid ctx w s h1 h2
    have hgate : ¬(¬(w.managers mid).firstLayoutDone = true
        ∧ ctx.type ≠ LayoutType.initialization) := fun hc =>
      match h2 with
      | Or.inl h => hc.1 h
      | Or.inr h => hc.2 h
    have hrec := performLayout_records_prev env fuel mid ctx w hgate
    have hstrat : (buildStrictContext (w.managers mid) ctx).strategy = s := by
      unfold buildStrictContext
      rw [h1]
      rfl
    rw [hstrat] at hrec
    exact hrec

/-- Witness for C10 at concrete inputs. -/
theorem bubbled_context_overrides_witness :
    buildStrictContext (exWorld.managers 0)
        { type := LayoutType.initialization, target := 0, targets := [1],
          strategyF := some 4, prevStrategyF := some (some 3),
          strategyChangeF := some true }
      = { strategy := 4, prevStrategy := some 3, strategyChange := true,
          type := LayoutType.initialization, target := 0, targets := [1],
          objectsRelativeToGroup := false, path := none }
    ∧ ((performLayout exEnv 2 0
          { type := LayoutType.initialization, target := 0, targets := [1],
            strategyF := some 4, prevStrategyF := some (some 3),
            strategyChangeF := some true } exWorld).1.managers 0).prevLayoutStrategy
      = some 4 :=
  ⟨bubbled_context_overrides.1 (exWorld.managers 0) _ 4 (some 3) true rfl rfl rfl,
   bubbled_context_overrides.2.2 exEnv 1 0 _ exWorld 4 rfl (Or.inr rfl)⟩

/-! ## C9: `groupSVGElements` -/

/-- C9 counterexample: with two elements and options that supply their own
layout manager, the returned group is not configured with the default
manager (the options spread overrides it), contradicting the claim that it
holds for any options. -/
theorem groupSVGElements_claim_false :
    ¬(groupSVGElements [0, 1] { layoutManager := some 5 }
        = GroupSVGResult.group [0, 1] GroupManagerCfg.defaultManager) := by
  decide

/-- C9 amended: `groupSVGElements` returns the lone object when exactly one
element is supplied; otherwise (two or more, and also zero) it returns a new
group over the whole list whose manager is a fresh default `LayoutManager`
unless the options supply one, in which case the supplied manager wins. -/
theorem groupSVGElements_amended (elements : List ObjId) (options : GroupOptions) :
    (∀ e, elements = [e] → groupSVGElements elements options
      = GroupSVGResult.single e)
    ∧ (elements.length ≠ 1 → groupSVGElements elements options
      = GroupSVGResult.group elements
          (match options.layoutManager with
           | some m => GroupManagerCfg.suppliedManager m
           | none => GroupManagerCfg.defaultManager)) := by
  constructor
  · intro e he
    subst he
    rfl
  · intro h
    cases elements with
    | nil => rfl
    | cons a t =>
      cases t with
      | nil => exact absurd rfl h
      | cons b t2 => rfl

/-- Witness for C9's amended statement at concrete inputs. -/
theorem groupSVGElements_amended_witness :
    groupSVGElements [7] {} = GroupSVGResult.single 7
    ∧ groupSVGElements [0, 1] {}
      = GroupSVGResult.group [0, 1] GroupManagerCfg.defaultManager :=
  ⟨(groupSVGElements_amended [7] {}).1 7 rfl,
   (groupSVGElements_amended [0, 1] {}).2 (by decide)⟩

/-! ## C4 and C8: bubbling and the shared path array -/

/-- Containers `0` (child, member of group `1`) and `1` (top-level, with
layout manager `1`); both managers past their initialization layout. -/
def exWorldAB : World :=
  { objs := fun i =>
      if i = 0 then { group := some 1 }
      else if i = 1 then { layoutManager := some 1, objects := [0] }
      else {}
    managers := fun i =>
      if i = 0 then { strategy := 0, firstLayoutDone := true }
      else { strategy := 1, firstLayoutDone := true }
    paths := fun _ => [] }

/-- A context for container `0` carrying a caller-supplied path array `0`. -/
def exCtxPath : LayoutContext :=
  { type := LayoutType.object_modified, target := 0, path := some 0 }

/-- C4: a non-gated pass on a container whose parent group has its own
layout manager invokes the parent's `performLayout` exactly once within the
same synchronous call (exactly one `bubble` effect in the whole trace,
aimed at the parent's manager), with `target` replaced by the parent and
the container appended to the context's path array — the array being
created when the context carried none. -/
theorem bubbling_to_parent (env : StrategyEnv) (fuel : Nat) (mid : ManagerId)
    (ctx : LayoutContext) (w : World) (bTid : ObjId) (pm : ManagerId)
    (hgate : ¬(¬(w.managers mid).firstLayoutDone = true
      ∧ ctx.type ≠ LayoutType.initialization))
    (hab : (w.objs ctx.target).group = some bTid)
    (hpm : (w.objs bTid).layoutManager = some pm)
    (hbtop : (w.objs bTid).group = none) :
    (performLayout env (fuel + 2) mid ctx w).2.filter LEffect.isBubble
      = [LEffect.bubble pm
          (bubbledContext (buildStrictContext (w.managers mid) ctx) bTid
            (match ctx.path with | some r => r | none => w.nextPathRef))]
    ∧ (bubbledContext (buildStrictContext (w.managers mid) ctx) bTid
        (match ctx.path with | some r => r | none => w.nextPathRef)).target = bTid
    ∧ (performLayout env (fuel + 2) mid ctx w).1.paths
        (match ctx.path with | some r => r | none => w.nextPathRef)
      = (match ctx.path with | some r => w.paths r | none => []) ++ [ctx.target] := by
  have h := performLayout_bubble_master env fuel mid ctx w bTid pm hgate hab hpm hbtop
  exact ⟨h.1, rfl, h.2.1⟩

/-- Witness for C4 at a concrete input. -/
theorem bubbling_to_parent_witness :
    (performLayout exEnvNone 2 0 exCtxMod exWorldAB).2.filter LEffect.isBubble
      = [LEffect.bubble 1
          (bubbledContext (buildStrictContext (exWorldAB.managers 0) exCtxMod) 1
            (match exCtxMod.path with | some r => r | none => exWorldAB.nextPathRef))]
    ∧ (performLayout exEnvNone 2 0 exCtxMod exWorldAB).1.paths
        (match exCtxMod.path with | some r => r | none => exWorldAB.nextPathRef)
      = (match exCtxMod.path with
          | some r => exWorldAB.paths r
          | none => []) ++ [exCtxMod.target] := by
  have h := bubbling_to_parent exEnvNone 0 0 exCtxMod exWorldAB 1 1
    (by decide) (by decide) (by decide) (by decide)
  exact ⟨h.1, h.2.2⟩

/-- C8 counterexample: the caller's context is not immutable — with a
caller-supplied path array and a parent to bubble to, the pass appends the
container to that very array, observable by the caller afterwards. -/
theorem context_immutable_claim_false :
    ¬((performLayout exEnvNone 2 0 exCtxPath exWorldAB).1.paths 0
      = exWorldAB.paths 0) := by
  decide

/-- C8 amended: every field of the caller's context is left intact except
the shared path array: when the pass bubbles (parent group with a manager,
parent itself top-level), the container is appended to the caller-supplied
array and no other array is touched; when the target has no parent group at
all, no path array changes. -/
theorem context_path_mutation :
    (∀ (env : StrategyEnv) (fuel : Nat) (mid : ManagerId) (ctx : LayoutContext)
        (w : World) (bTid : ObjId) (pm : ManagerId) (r : PathRef),
      ¬(¬(w.managers mid).firstLayoutDone = true
        ∧ ctx.type ≠ LayoutType.initialization) →
      (w.objs ctx.target).group = some bTid →
      (w.objs bTid).layoutManager = some pm →
      (w.objs bTid).group = none →
      ctx.path = some r →
      (performLayout env (fuel + 2) mid ctx w).1.paths r
        = w.paths r ++ [ctx.target]
      ∧ (∀ r', r' ≠ r →
          (performLayout env (fuel + 2) mid ctx w).1.paths r' = w.paths r'))
    ∧ (∀ (env : StrategyEnv) (fuel : Nat) (mid : ManagerId) (ctx : LayoutContext)
        (w : World), (w.objs ctx.target).group = none →
      (performLayout env fuel mid ctx w).1.paths = w.paths) := by
  constructor
  · intro env fuel mid ctx w bTid pm r hgate hab hpm hbtop hpath
    have h := performLayout_bubble_master env fuel mid ctx w bTid pm hgate hab
      hpm hbtop
    rw [hpath] at h
    exact ⟨h.2.1, h.2.2⟩
  · intro env fuel mid ctx w hng
    exact (performLayout_noParent_paths env fuel mid ctx w hng).1

/-- Witness for C8's amended statement at concrete inputs. -/
theorem context_path_mutation_witness :
    (performLayout exEnvNone 2 0 exCtxPath exWorldAB).1.paths 0
      = exWorldAB.paths 0 ++ [exCtxPath.target]
    ∧ (performLayout exEnvNone 3 0 exCtxMod exWorld).1.paths = exWorld.paths :=
  ⟨(context_path_mutation.1 exEnvNone 0 0 exCtxPath exWorldAB 1 1 0
      (by decide) (by decide) (by decide) (by decide) rfl).1,
   context_path_mutation.2 exEnvNone 3 0 exCtxMod exWorld (by decide)⟩

/-! ## C5: the subscription table -/

/-- A world as left by an initialization layout of `exWorld`: flags set and
child `1` subscribed with listeners 0–7. -/
def exWorldDone : World :=
  { objs := exWorld.objs
    managers := fun _ =>
      { strategy := 0, firstLayoutDone := true, prevLayoutStrategy := some 0,
        subscriptions := [(1, [0, 1, 2, 3, 4, 5, 6, 7])] }
    listeners := (List.range 8).map (fun i => (i, 1))
    nextListenerId := 8
    paths := fun _ => [] }

/-- A `removed`-typed context dropping child `1` from container `0`. -/
def exCtxRemoved : LayoutContext :=
  { type := LayoutType.removed, target := 0, targets := [1] }

/-- C5: (a) `subscribe` first disposes every disposer registered for the
object, then installs a fresh list, so — whenever the subscription table
covers the object's active listeners — the object's active listeners after
`subscribe` are exactly the `subscribeCount` freshly installed ones, and the
table maps the object to exactly that disposer set; (b) a `removed`-typed
layout pass disposes the listeners of every object in `targets`. -/
theorem subscription_single_set :
    (∀ (mid : ManagerId) (o : ObjId) (w : World),
      (∀ l ∈ w.listeners, l.2 = o →
        l.1 ∈ (mapGet (w.managers mid).subscriptions o).getD []) →
      (LayoutManagerState.subscribeW mid o w).listeners.filter
          (fun l => l.2 = o)
        = (List.range subscribeCount).map (fun i => (w.nextListenerId + i, o))
      ∧ mapGet ((LayoutManagerState.subscribeW mid o w).managers mid).subscriptions o
        = some ((List.range subscribeCount).map (fun i => w.nextListenerId + i)))
    ∧ (∀ (env : StrategyEnv) (fuel : Nat) (mid : ManagerId) (ctx : LayoutContext)
        (w : World) (o : ObjId),
        ctx.type = LayoutType.removed →
        (w.managers mid).firstLayoutDone = true →
        o ∈ ctx.targets →
        (∀ l ∈ w.listeners, l.2 = o →
          l.1 ∈ (mapGet (w.managers mid).subscriptions o).getD []) →
        ∀ l ∈ (performLayout env (fuel + 1) mid ctx w).1.listeners, l.2 ≠ o) := by
  constructor
  · intro mid o w hinv
    constructor
    · rw [subscribeW_listeners, List.filter_append]
      have h1 : ((LayoutManagerState.unsubscribeW mid o w).listeners).filter
          (fun l => decide (l.2 = o)) = [] := by
        rw [unsubscribeW_listeners, List.filter_filter]
        rw [List.filter_eq_nil_iff]
        intro a ha
        simp only [Bool.and_eq_true, decide_eq_true_eq, not_and]
        intro h2 h3
        exact h3 (hinv a ha h2)
      have h2 : (((List.range subscribeCount).map (fun i => w.nextListenerId + i)).map
          (fun i => (i, o))).filter (fun l => decide (l.2 = o))
          = ((List.range subscribeCount).map (fun i => w.nextListenerId + i)).map
              (fun i => (i, o)) := by
        rw [List.filter_eq_self]
        intro a ha
        rcases List.mem_map.mp ha with ⟨i, _, hi⟩
        rw [← hi]
        simp
      rw [h1, h2, List.nil_append, List.map_map]
      rfl
    · rw [subscribeW_subsMap]
      exact mapGet_mapSet_self _ o _
  · intro env fuel mid ctx w o htype hfirst ho hinv l hl
    have hgate : ¬(¬(w.managers mid).firstLayoutDone = true
        ∧ ctx.type ≠ LayoutType.initialization) := fun hc => hc.1 hfirst
    rw [performLayout_succ_not_gated env fuel mid ctx w hgate] at hl
    have hb := performLayoutBody_removed_listeners env (performLayout env fuel)
      mid ctx w htype
      (fun pm bctx w' ht => performLayout_removed_subset env fuel pm bctx w' ht)
      l hl
    have hbefore : (onBeforeLayoutW mid (buildStrictContext (w.managers mid) ctx) w).1
        = (buildStrictContext (w.managers mid) ctx).targets.foldl
            (fun acc x => LayoutManagerState.unsubscribeW mid x acc) w :=
      onBeforeLayoutW_removed mid _ w (by rw [buildStrictContext_type, htype])
    rw [hbefore] at hb
    exact unsubFold_clears mid (buildStrictContext (w.managers mid) ctx).targets
      w o (by rw [buildStrictContext_targets]; exact ho) hinv l hb

/-- Witness for C5 at concrete inputs. -/
theorem subscription_single_set_witness :
    ((LayoutManagerState.subscribeW 0 1 exWorld).listeners.filter
        (fun l => l.2 = 1)
      = (List.range subscribeCount).map (fun i => (exWorld.nextListenerId + i, 1))
    ∧ mapGet ((LayoutManagerState.subscribeW 0 1 exWorld).managers 0).subscriptions 1
      = some ((List.range subscribeCount).map (fun i => exWorld.nextListenerId + i)))
    ∧ (∀ l ∈ (performLayout exEnv 2 0 exCtxRemoved exWorldDone).1.listeners,
        l.2 ≠ 1) :=
  ⟨subscription_single_set.1 0 1 exWorld (by decide),
   subscription_single_set.2 exEnv 1 0 exCtxRemoved exWorldDone 1 rfl rfl
     (by decide) (by decide)⟩

/-- Witness for C6 at concrete inputs: the bundle computed over `wC` has
equal centers and a zero offset, and on the centered-origin world
`exWorldDone` the second identical pass leaves the child where the first
left it. -/
theorem layout_idempotent_amended_witness :
    (getLayoutResult envC scW wC = some lrW ∧ lrW.offset = Point.zeroP)
    ∧ ((performLayout exEnv 2 0 exCtxMod
          (performLayout exEnv 2 0 exCtxMod exWorldDone).1).1.objs 1).relXY
        = ((performLayout exEnv 2 0 exCtxMod exWorldDone).1.objs 1).relXY := by
  have h : getLayoutResult envC scW wC = some lrW := by
    simp [getLayoutResult, envC, scW, wC, lrW, rC, glrPrevCenter, glrOffset,
      ObjState.getRelativeCenterPoint, Point.transform, Point.add, Point.subtract,
      Point.zeroP, invertTransform, iMatrix]
    norm_num
  exact ⟨⟨h, layout_idempotent_amended.1 envC scW wC lrW (by decide) h
      rfl rfl rfl rfl rfl⟩,
    layout_idempotent_amended.2 exEnv 1 1 0 exCtxMod exWorldDone
      { centerX := 10, centerY := 0, width := 20, height := 20 }
      (fun _ _ _ => rfl) rfl rfl rfl rfl (by decide) rfl rfl rfl rfl 1⟩

end Fabric
